import Mathlib

/-!
Verification development for the HBnB teaching project (parts 2-5):
a simplified Airbnb-like REST API with Users, Places, Reviews and
Amenities, CRUD endpoints, ownership rules and JWT-based authorization.

The definitions below are a shallow embedding of the Python sources:
  - part2/app/models/{place,review,user}.py and part2/app/persistence/repository.py
  - part2/app/services/facade.py
  - part3/app/api/v1/{places,users}.py and part3/app/persistence/repository.py
  - part4/app/services/facade.py and part4/app/models/place.py
  - part5/app/api/v1/reviews.py and part5/app/models/user.py

Conventions of the embedding:
  - Python `str` is Lean `String`; numeric payload values (Python int/float)
    are embedded as `Rat` (the code only compares them against constants,
    so exact rationals are faithful);
  - Python dict payloads are records of `Option` fields: `none` means the
    key is absent (`dict.get` returns `None`), `some v` means present;
  - a repository (dict or SQL table keyed by id) is a `List` of records,
    `storage[obj.id] = obj` is append-or-replace, lookup is `List.find?`;
  - `ValueError` raising code returns `Except String`; the error string is
    the exception message;
  - uuid4 / timestamp generation is nondeterministic input, passed in as
    explicit `fresh_id` / timestamp arguments;
  - `created_at` / `updated_at` are carried as opaque strings (their
    isoformat rendering); the model does not track timestamp refreshes,
    and no theorem below inspects them.
-/

/-! ## Python string helpers -/

/-- Whitespace test used by Python `str.strip` (ASCII whitespace; the extra
Python whitespace code points \x0b and \f never occur in the claims). -/
def isPySpace (c : Char) : Bool := c.isWhitespace

/-- Strip leading and trailing whitespace from a character list. -/
def pyStripList (cs : List Char) : List Char :=
  ((cs.dropWhile isPySpace).reverse.dropWhile isPySpace).reverse

/-- Python `str.strip()`. -/
def pyStrip (s : String) : String := String.mk (pyStripList s.data)

/-- Python `str.lower()` (the repository only stores ASCII emails). -/
def pyLower (s : String) : String := String.mk (s.data.map Char.toLower)

/-! ## The email regex of the User models

Both part2/app/models/user.py and part5/app/models/user.py validate emails
with `re.match` against the anchored pattern

  `^[a-zA-Z0-9._%+-]+@[a-zA-Z0-9.-]+\.[a-zA-Z]{2,}$`

Neither character class contains `@`, so a match forces exactly one `@`;
the trailing `[a-zA-Z]{2,}$` is an all-alphabetic suffix, so the dot of
`\.` is necessarily the last dot of the string.  `pyEmailMatch` decides the
pattern by that analysis. -/

/-- Character class `[a-zA-Z0-9._%+-]` (the local part of the pattern). -/
def isLocalChar (c : Char) : Bool :=
  c.isAlphanum || c == '.' || c == '_' || c == '%' || c == '+' || c == '-'

/-- Character class `[a-zA-Z0-9.-]` (the domain part of the pattern). -/
def isDomainChar (c : Char) : Bool :=
  c.isAlphanum || c == '.' || c == '-'

/-- Decides whether `re.match` with the email pattern above succeeds. -/
def pyEmailMatch (s : String) : Bool :=
  let cs := s.data
  let lp := cs.takeWhile isLocalChar
  match cs.drop lp.length with
  | '@' :: rest =>
    !lp.isEmpty &&
      (let r := rest.reverse
       let tld := r.takeWhile Char.isAlpha
       match r.drop tld.length with
       | '.' :: domR => decide (2 ≤ tld.length) && !domR.isEmpty && domR.all isDomainChar
       | _ => false)
  | _ => false

example : pyEmailMatch "john.doe@example.com" = true := by decide
example : pyEmailMatch "a@b.co" = true := by decide
example : pyEmailMatch "not-an-email" = false := by decide
example : pyEmailMatch "a@b" = false := by decide

/-! ## Entity records -/

/-- Review record as stored by parts 3-5 (part3/app/models/review.py keeps
`user_id` and `place_id` foreign keys). -/
structure ReviewRec where
  id : String
  text : String
  rating : Int
  user_id : String
  place_id : String
deriving DecidableEq, Repr

/-- Place record (part2/app/models/place.py and part4/app/models/place.py;
part2 stores the owner `User` object, whose id this field records, part4
stores `owner_id` directly; `amenities` records the ids of the attached
amenity objects). -/
structure PlaceRec where
  id : String
  title : String
  description : String
  price : Rat
  latitude : Rat
  longitude : Rat
  owner_id : String
  amenities : List String
deriving DecidableEq, Repr

/-- Amenity record (id plus name). -/
structure AmenityRec where
  id : String
  name : String
deriving DecidableEq, Repr

/-- User record of parts 3-5 (part5/app/models/user.py): `password` holds
the bcrypt hash, `created_at` / `updated_at` the isoformat timestamps. -/
structure UserRec where
  id : String
  first_name : String
  last_name : String
  email : String
  password : String
  is_admin : Bool
  created_at : String
  updated_at : String
deriving DecidableEq, Repr

/-- User record of part2 (part2/app/models/user.py has no password). -/
structure User2Rec where
  id : String
  first_name : String
  last_name : String
  email : String
  is_admin : Bool
deriving DecidableEq, Repr

/-- A Python value that is either an int or something that is not an int,
as tested by `isinstance(rating, int)` in the Review validators. -/
inductive PyIntVal where
  | int (n : Int)
  | nonInt
deriving DecidableEq, Repr

/-! ## Place attribute validators

Shared verbatim between part2/app/models/place.py and
part4/app/models/place.py.  Each validator takes an `Option` so that the
part4 facade can feed it `place_data.get(...)` results; `none` (Python
`None`) is falsy and fails the `isinstance` checks exactly like the code. -/

namespace Place

/-- Validator `Place._validate_title`. -/
def _validate_title : Option String → Except String String
  | none => .error "Title is required and must be a string"
  | some t =>
    if t = "" then .error "Title is required and must be a string"
    else if pyStrip t = "" then .error "Title cannot be empty or just whitespace"
    else if 100 < (pyStrip t).length then .error "Title must not exceed 100 characters"
    else .ok (pyStrip t)

/-- Validator `Place._validate_price` (the `isinstance` guard rejects a
missing value; a present value is embedded as an exact rational). -/
def _validate_price : Option Rat → Except String Rat
  | none => .error "Price must be a number"
  | some p => if p ≤ 0 then .error "Price must be a positive value" else .ok p

/-- Validator `Place._validate_latitude`. -/
def _validate_latitude : Option Rat → Except String Rat
  | none => .error "Latitude must be a number"
  | some la =>
    if la < -90 || 90 < la then .error "Latitude must be between -90.0 and 90.0"
    else .ok la

/-- Validator `Place._validate_longitude`. -/
def _validate_longitude : Option Rat → Except String Rat
  | none => .error "Longitude must be a number"
  | some lo =>
    if lo < -180 || 180 < lo then .error "Longitude must be between -180.0 and 180.0"
    else .ok lo

/-- Constructor `Place.__init__` of part2/app/models/place.py: validates
title, price, latitude and longitude in that order, defaults the
description (`description if description else ""`), and records the owner
(the `_validate_owner` instance check always passes for a well-typed owner
id) with empty review and amenity lists. -/
def init (fresh_id : String) (title description : Option String)
    (price latitude longitude : Option Rat) (owner_id : String) :
    Except String PlaceRec :=
  match _validate_title title with
  | .error e => .error e
  | .ok t =>
    match _validate_price price with
    | .error e => .error e
    | .ok p =>
      match _validate_latitude latitude with
      | .error e => .error e
      | .ok la =>
        match _validate_longitude longitude with
        | .error e => .error e
        | .ok lo =>
          .ok { id := fresh_id, title := t, description := description.getD "",
                price := p, latitude := la, longitude := lo,
                owner_id := owner_id, amenities := [] }

end Place

/-! ## Review attribute validators

Shared verbatim between part2/app/models/review.py and
part3/app/models/review.py. -/

namespace Review

/-- Validator `Review._validate_text`. -/
def _validate_text : Option String → Except String String
  | none => .error "Review text is required and must be a string"
  | some t =>
    if t = "" then .error "Review text is required and must be a string"
    else if pyStrip t = "" then .error "Review text cannot be empty or just whitespace"
    else if 1000 < (pyStrip t).length then .error "Review text must not exceed 1000 characters"
    else .ok (pyStrip t)

/-- Validator `Review._validate_rating`: `isinstance(rating, int)` rejects
a missing or non-integer value, then the range [1, 5] is enforced. -/
def _validate_rating : Option PyIntVal → Except String Int
  | some (.int n) =>
    if n < 1 || 5 < n then .error "Rating must be between 1 and 5" else .ok n
  | _ => .error "Rating must be an integer"

/-- Constructor `Review.__init__` of part3/app/models/review.py: validates
text and rating in that order and stores the `user_id` and `place_id`
foreign keys unchecked (part2 stores Place/User objects instead; the text
and rating validation is identical). -/
def init (fresh_id : String) (text : Option String) (rating : Option PyIntVal)
    (user_id place_id : String) : Except String ReviewRec :=
  match _validate_text text with
  | .error e => .error e
  | .ok t =>
    match _validate_rating rating with
    | .error e => .error e
    | .ok n =>
      .ok { id := fresh_id, text := t, rating := n,
            user_id := user_id, place_id := place_id }

end Review

example : (Place.init "p1" (some "Beach House") (some "nice") (some 150)
    (some 34) (some (-118)) "u1").isOk = true := by decide
example : (Place.init "p1" (some "Beach House") (some "nice") (some 0)
    (some 34) (some (-118)) "u1").isOk = false := by decide
example : (Review.init "r1" (some "Great place!") (some (.int 5)) "u1" "p1").isOk = true := by
  decide
example : Review.init "r1" (some "Great place!") (some (.int 7)) "u1" "p1" =
    .error "Rating must be between 1 and 5" := by rfl

/-! ## User model of parts 3-5 (part5/app/models/user.py)

Password hashing calls the external Flask-Bcrypt library
(`bcrypt.generate_password_hash`), whose salted output is not code of this
repository; the embedding takes the hash as an uninterpreted function
argument `bcryptHash`. -/

namespace User

/-- Validator `User._validate_name` of part5/app/models/user.py. -/
def _validate_name (name : Option String) (field_name : String) : Except String String :=
  match name with
  | none => .error (field_name ++ " is required and must be a string")
  | some n =>
    if n = "" then .error (field_name ++ " is required and must be a string")
    else
      let n := pyStrip n
      if n.length = 0 then .error (field_name ++ " cannot be empty")
      else if 50 < n.length then .error (field_name ++ " must be less than 50 characters")
      else .ok n

/-- Validator `User._validate_email` of part5/app/models/user.py: strips,
lowercases, then matches the email pattern. -/
def _validate_email : Option String → Except String String
  | none => .error "Email is required and must be a string"
  | some e =>
    if e = "" then .error "Email is required and must be a string"
    else
      let e := pyLower (pyStrip e)
      if pyEmailMatch e then .ok e else .error "Invalid email format"

/-- Method `User.hash_password` of part5/app/models/user.py: rejects a
missing, empty or too-short password, otherwise stores the bcrypt hash. -/
def hash_password (bcryptHash : String → String) : Option String → Except String String
  | none => .error "Password is required and must be a string"
  | some p =>
    if p = "" then .error "Password is required and must be a string"
    else if p.length < 6 then .error "Password must be at least 6 characters long"
    else .ok (bcryptHash p)

/-- Constructor `User.__init__` of part5/app/models/user.py: validates the
names, the email and the password in that order. -/
def init (bcryptHash : String → String) (fresh_id created_at : String)
    (first_name last_name email password : Option String) (is_admin : Bool) :
    Except String UserRec :=
  match _validate_name first_name "First name" with
  | .error e => .error e
  | .ok fn =>
    match _validate_name last_name "Last name" with
    | .error e => .error e
    | .ok ln =>
      match _validate_email email with
      | .error e => .error e
      | .ok em =>
        match hash_password bcryptHash password with
        | .error e => .error e
        | .ok pw =>
          .ok { id := fresh_id, first_name := fn, last_name := ln, email := em,
                password := pw, is_admin := is_admin,
                created_at := created_at, updated_at := created_at }

/-- Method `User.to_dict` value domain: the serialized dictionary maps keys
to strings or booleans. -/
inductive DictVal where
  | str (s : String)
  | bool (b : Bool)
deriving DecidableEq, Repr

/-- Method `User.to_dict` of part5/app/models/user.py: serializes exactly
id, first_name, last_name, email, is_admin, created_at and updated_at
(`created_at.isoformat()` is the carried timestamp string). -/
def to_dict (u : UserRec) : List (String × DictVal) :=
  [("id", .str u.id),
   ("first_name", .str u.first_name),
   ("last_name", .str u.last_name),
   ("email", .str u.email),
   ("is_admin", .bool u.is_admin),
   ("created_at", .str u.created_at),
   ("updated_at", .str u.updated_at)]

end User

/-! ## User model of part2 (part2/app/models/user.py): no password field,
slightly different validation messages, regex applied to the stripped
email before lowercasing. -/

namespace User2

/-- Validator `User._validate_name` of part2/app/models/user.py. -/
def _validate_name (name : String) (field_name : String) : Except String String :=
  if name = "" then .error (field_name ++ " is required and must be a string")
  else if pyStrip name = "" then .error (field_name ++ " cannot be empty or just whitespace")
  else if 50 < (pyStrip name).length then .error (field_name ++ " must not exceed 50 characters")
  else .ok (pyStrip name)

/-- Validator `User._validate_email` of part2/app/models/user.py. -/
def _validate_email (email : String) : Except String String :=
  if email = "" then .error "Email is required and must be a string"
  else if pyStrip email = "" then .error "Email cannot be empty or just whitespace"
  else if pyEmailMatch (pyStrip email) then .ok (pyLower (pyStrip email))
  else .error "Invalid email format"

/-- Constructor `User.__init__` of part2/app/models/user.py. -/
def init (fresh_id : String) (first_name last_name email : String) (is_admin : Bool) :
    Except String User2Rec :=
  match _validate_name first_name "First name" with
  | .error e => .error e
  | .ok fn =>
    match _validate_name last_name "Last name" with
    | .error e => .error e
    | .ok ln =>
      match _validate_email email with
      | .error e => .error e
      | .ok em =>
        .ok { id := fresh_id, first_name := fn, last_name := ln, email := em,
              is_admin := is_admin }

end User2

/-! ## The in-memory repository (part2/app/persistence/repository.py)

The storage dict `self._storage = {obj_id: obj}` is embedded as a list of
stored objects in insertion order; `storage[obj.id] = obj` replaces in
place when the key exists (Python dicts keep the original position) and
appends otherwise.  A stored object is anything with an `id` attribute;
`get_by_attribute` reads further attributes with `getattr`, embedded here
as an attribute association list. -/

/-- An object held by the in-memory repository: an id plus its remaining
attributes (every object stored in one repository carries the attributes
that `get_by_attribute` is called with, so the `getattr` lookup is total). -/
structure PyObj where
  id : String
  attrs : List (String × String)
deriving DecidableEq, Repr

/-- Python `getattr(obj, attr_name)` over the attribute list. -/
def PyObj.getattr (o : PyObj) (attr_name : String) : String :=
  ((o.attrs.find? (fun kv => kv.1 == attr_name)).map (fun kv => kv.2)).getD ""

namespace InMemoryRepository

/-- Method `add`: `self._storage[obj.id] = obj`. -/
def add (st : List PyObj) (obj : PyObj) : List PyObj :=
  if st.any (fun o => o.id == obj.id) then
    st.map (fun o => if o.id == obj.id then obj else o)
  else st ++ [obj]

/-- Method `get`: `self._storage.get(obj_id)`. -/
def get (st : List PyObj) (obj_id : String) : Option PyObj :=
  st.find? (fun o => o.id == obj_id)

/-- Method `get_all`: `list(self._storage.values())`. -/
def get_all (st : List PyObj) : List PyObj := st

/-- Method `delete`: `if obj_id in self._storage: del self._storage[obj_id]`. -/
def delete (st : List PyObj) (obj_id : String) : List PyObj :=
  st.filter (fun o => o.id != obj_id)

/-- Method `get_by_attribute`: first stored object whose attribute equals
the value, `None` otherwise. -/
def get_by_attribute (st : List PyObj) (attr_name attr_value : String) : Option PyObj :=
  st.find? (fun o => o.getattr attr_name == attr_value)

end InMemoryRepository

/-! ## Shared repository-as-list helpers -/

/-- Replace every stored record carrying the same id (SQL UPDATE of a row /
in-place mutation of the session object; ids are unique in any reachable
state, so exactly one record is replaced). -/
def listReplaceById {α : Type} (key : α → String) (st : List α) (x : α) : List α :=
  st.map (fun y => if key y == key x then x else y)

/-- Python dict assignment `storage[key x] = x`: replace in place when the
key is present, append otherwise. -/
def dictAdd {α : Type} (key : α → String) (st : List α) (x : α) : List α :=
  if st.any (fun y => key y == key x) then st.map (fun y => if key y == key x then x else y)
  else st ++ [x]

/-! ## Application state -/

/-- State of the database-backed parts (3-5): one table per entity. -/
structure AppState where
  users : List UserRec
  places : List PlaceRec
  amenities : List AmenityRec
  reviews : List ReviewRec
deriving DecidableEq, Repr

/-- State of part2 (in-memory repositories of the part2 facade). -/
structure App2State where
  users : List User2Rec
  places : List PlaceRec
  amenities : List AmenityRec
deriving DecidableEq, Repr

/-! ## Request payloads

A payload is the parsed JSON body; an `Option` field is `none` when the
key is absent from the dict. -/

/-- Payload of the place endpoints. -/
structure PlacePayload where
  title : Option String
  description : Option String
  price : Option Rat
  latitude : Option Rat
  longitude : Option Rat
  owner_id : Option String
  amenity_ids : Option (List String)
deriving DecidableEq, Repr

/-- Payload of the review endpoints. -/
structure ReviewPayload where
  text : Option String
  rating : Option PyIntVal
  user_id : Option String
  place_id : Option String
deriving DecidableEq, Repr

/-- Payload of the user endpoints. -/
structure UserPayload where
  first_name : Option String
  last_name : Option String
  email : Option String
  password : Option String
  is_admin : Option Bool
deriving DecidableEq, Repr

/-- Payload of part2's user creation (`User(**user_data)` binds the
required constructor arguments). -/
structure User2Payload where
  first_name : String
  last_name : String
  email : String
  is_admin : Bool
deriving DecidableEq, Repr

/-- Payload of part2's place creation (`place_data.pop('owner_id')` then
`Place(**place_data, owner=owner)` binds the required arguments). -/
structure Place2CreateData where
  title : String
  description : String
  price : Rat
  latitude : Rat
  longitude : Rat
  owner_id : String
deriving DecidableEq, Repr

/-! ## Facade of part4 (part4/app/services/facade.py)

The facade of parts 3 and 5 is not under src/ (only part2's and part4's
facades are); the handlers of parts 3 and 5 are therefore composed with
this in-src facade.  Its repositories delegate to the SQLAlchemy
repository; `add` inserts a row, the commit of an already-mutated record
(`repo.update(obj_id, obj)`) is modelled from the spec as replacing the
stored record, since the repository sources of parts 4-5 are not under
src/ (the in-src part3 SQLAlchemyRepository.update applies a dict payload
with setattr, which `HBnBFacade.update_user` below follows exactly). -/

namespace HBnBFacade

/-- Facade `get_user`: `self.user_repo.get(user_id)`. -/
def get_user (st : AppState) (user_id : String) : Option UserRec :=
  st.users.find? (fun u => u.id == user_id)

/-- Facade `get_user_by_email`: normalizes with `.strip().lower()` and
queries the user table by exact email. -/
def get_user_by_email (st : AppState) (email : String) : Option UserRec :=
  st.users.find? (fun u => u.email == pyLower (pyStrip email))

/-- Facade `get_place`: `self.place_repo.get(place_id)`; `none` stands for
a missing key (`repo.get(None)` finds nothing). -/
def get_place (st : AppState) (place_id : Option String) : Option PlaceRec :=
  match place_id with
  | none => none
  | some pid => st.places.find? (fun p => p.id == pid)

/-- Facade `get_review`. -/
def get_review (st : AppState) (review_id : String) : Option ReviewRec :=
  st.reviews.find? (fun r => r.id == review_id)

/-- Facade `get_reviews_by_place`: `review_repo.get_by_place` filters the
review table by `place_id`. -/
def get_reviews_by_place (st : AppState) (place_id : String) : List ReviewRec :=
  st.reviews.filter (fun r => r.place_id == place_id)

/-- Facade `create_user` of part4/app/services/facade.py: normalizes the
payload email, rejects a registered email, otherwise constructs and
inserts the user. -/
def create_user (bcryptHash : String → String) (st : AppState) (d : UserPayload)
    (fresh_id created_at : String) : Except String (UserRec × AppState) :=
  let email := pyLower (pyStrip (d.email.getD ""))
  match st.users.find? (fun u => u.email == email) with
  | some _ => .error "Email already registered"
  | none =>
    match User.init bcryptHash fresh_id created_at d.first_name d.last_name d.email
        d.password (d.is_admin.getD false) with
    | .error e => .error e
    | .ok u => .ok (u, { st with users := st.users ++ [u] })

/-- Step of `update_user`: the `first_name` branch. -/
def updFirstName (d : UserPayload) (u : UserRec) : Except String UserRec :=
  match d.first_name with
  | none => .ok u
  | some v => (User._validate_name (some v) "First name").map
      (fun fn => { u with first_name := fn })

/-- Step of `update_user`: the `last_name` branch. -/
def updLastName (d : UserPayload) (u : UserRec) : Except String UserRec :=
  match d.last_name with
  | none => .ok u
  | some v => (User._validate_name (some v) "Last name").map
      (fun ln => { u with last_name := ln })

/-- Step of `update_user`: the `email` branch validates the new email and
rejects it when a different user already holds it. -/
def updEmail (st : AppState) (user_id : String) (d : UserPayload) (u : UserRec) :
    Except String UserRec :=
  match d.email with
  | none => .ok u
  | some v =>
    match User._validate_email (some v) with
    | .error e => .error e
    | .ok new_email =>
      match st.users.find? (fun x => x.email == new_email) with
      | some existing =>
        if existing.id != user_id then .error "Email already registered"
        else .ok { u with email := new_email }
      | none => .ok { u with email := new_email }

/-- Step of `update_user`: the `password` branch re-hashes. -/
def updPassword (bcryptHash : String → String) (d : UserPayload) (u : UserRec) :
    Except String UserRec :=
  match d.password with
  | none => .ok u
  | some v => (User.hash_password bcryptHash (some v)).map
      (fun pw => { u with password := pw })

/-- Final step of `update_user`: `self.user_repo.update(user_id,
user_data)` re-applies the raw payload fields with `setattr` (the in-src
SQLAlchemyRepository.update of part3/app/persistence/repository.py
iterates `data.items()`); a raw email or plaintext password value in the
payload therefore overwrites the validated one on the stored record. -/
def userRawApply (u : UserRec) (d : UserPayload) : UserRec :=
  let u := match d.first_name with | none => u | some v => { u with first_name := v }
  let u := match d.last_name with | none => u | some v => { u with last_name := v }
  let u := match d.email with | none => u | some v => { u with email := v }
  let u := match d.password with | none => u | some v => { u with password := v }
  let u := match d.is_admin with | none => u | some v => { u with is_admin := v }
  u

/-- Facade `update_user` of part4/app/services/facade.py: `.ok none` is
Python returning `None` for an unknown user; a raised `ValueError` leaves
the transaction uncommitted, so the state is unchanged. -/
def update_user (bcryptHash : String → String) (st : AppState) (user_id : String)
    (d : UserPayload) : Except String (Option (UserRec × AppState)) :=
  match st.users.find? (fun u => u.id == user_id) with
  | none => .ok none
  | some user0 =>
    match (updFirstName d user0).bind (updLastName d) |>.bind (updEmail st user_id d)
        |>.bind (updPassword bcryptHash d) with
    | .error e => .error e
    | .ok u =>
      let u := match d.is_admin with | none => u | some b => { u with is_admin := b }
      let u := userRawApply u d
      .ok (some (u, { st with users := listReplaceById (fun x => x.id) st.users u }))

/-- Amenity existence check of `create_place` / `update_place`: the loop
over `amenity_ids` raises on the first id without a stored amenity. -/
def firstMissingAmenity (st : AppState) (ids : List String) : Option String :=
  ids.find? (fun i => (st.amenities.find? (fun a => a.id == i)).isNone)

/-- Method `Place.add_amenity` applied along the id list: appends each
found amenity unless already attached. -/
def addAmenities (ids : List String) : List String :=
  ids.foldl (fun acc i => if acc.contains i then acc else acc ++ [i]) []

/-- Facade `create_place` of part4/app/services/facade.py: the owner must
exist, the model validates the fields, every listed amenity must exist. -/
def create_place (st : AppState) (d : PlacePayload) (fresh_id : String) :
    Except String (PlaceRec × AppState) :=
  match d.owner_id.bind (fun oid => st.users.find? (fun u => u.id == oid)) with
  | none => .error "Owner not found"
  | some _ =>
    match Place.init fresh_id d.title d.description d.price d.latitude d.longitude
        (d.owner_id.getD "") with
    | .error e => .error e
    | .ok place0 =>
      let ids := d.amenity_ids.getD []
      match firstMissingAmenity st ids with
      | some missing => .error ("Amenity " ++ missing ++ " not found")
      | none =>
        let place := { place0 with amenities := addAmenities ids }
        .ok (place, { st with places := st.places ++ [place] })

/-- Steps of `update_place`: each present field is validated and applied
in source order (title, description raw, price, latitude, longitude). -/
def updPlaceFields (d : PlacePayload) (p : PlaceRec) : Except String PlaceRec :=
  match (match d.title with
         | none => Except.ok p
         | some v => (Place._validate_title (some v)).map (fun t => { p with title := t })) with
  | .error e => .error e
  | .ok p =>
    let p := match d.description with | none => p | some v => { p with description := v }
    match (match d.price with
           | none => Except.ok p
           | some v => (Place._validate_price (some v)).map (fun x => { p with price := x })) with
    | .error e => .error e
    | .ok p =>
      match (match d.latitude with
             | none => Except.ok p
             | some v => (Place._validate_latitude (some v)).map (fun x => { p with latitude := x })) with
      | .error e => .error e
      | .ok p =>
        match d.longitude with
        | none => Except.ok p
        | some v => (Place._validate_longitude (some v)).map (fun x => { p with longitude := x })

/-- Facade `update_place` of part4/app/services/facade.py: validates the
present fields, verifies every listed amenity id before attaching the
amenities, then commits the record. -/
def update_place (st : AppState) (place_id : String) (d : PlacePayload) :
    Except String (Option (PlaceRec × AppState)) :=
  match st.places.find? (fun p => p.id == place_id) with
  | none => .ok none
  | some place0 =>
    match updPlaceFields d place0 with
    | .error e => .error e
    | .ok p1 =>
      match (match d.amenity_ids with
             | none => Except.ok p1
             | some ids =>
               match firstMissingAmenity st ids with
               | some missing => Except.error ("Amenity " ++ missing ++ " not found")
               | none => Except.ok { p1 with amenities := ids }) with
      | .error e => .error e
      | .ok p2 =>
        .ok (some (p2, { st with places := listReplaceById (fun x => x.id) st.places p2 }))

/-- Facade `create_review` of part4/app/services/facade.py: the author and
the place must exist, then the Review model validates text and rating. -/
def create_review (st : AppState) (d : ReviewPayload) (fresh_id : String) :
    Except String (ReviewRec × AppState) :=
  match d.user_id.bind (fun uid => st.users.find? (fun u => u.id == uid)) with
  | none => .error "User not found"
  | some _ =>
    match d.place_id.bind (fun pid => st.places.find? (fun p => p.id == pid)) with
    | none => .error "Place not found"
    | some _ =>
      match Review.init fresh_id d.text d.rating (d.user_id.getD "") (d.place_id.getD "") with
      | .error e => .error e
      | .ok r => .ok (r, { st with reviews := st.reviews ++ [r] })

/-- Facade `update_review` of part4/app/services/facade.py. -/
def update_review (st : AppState) (review_id : String) (d : ReviewPayload) :
    Except String (Option (ReviewRec × AppState)) :=
  match st.reviews.find? (fun r => r.id == review_id) with
  | none => .ok none
  | some review0 =>
    match (match d.text with
           | none => Except.ok review0
           | some v => (Review._validate_text (some v)).map (fun t => { review0 with text := t })) with
    | .error e => .error e
    | .ok r1 =>
      match (match d.rating with
             | none => Except.ok r1
             | some v => (Review._validate_rating (some v)).map (fun n => { r1 with rating := n })) with
      | .error e => .error e
      | .ok r2 =>
        .ok (some (r2, { st with reviews := listReplaceById (fun x => x.id) st.reviews r2 }))

end HBnBFacade

/-! ## Facade of part2 (part2/app/services/facade.py)

Part2 wires four InMemoryRepository instances; adding is Python dict
assignment.  Note that its `create_user` performs no email-uniqueness
check at all (the check lives in the part2 API layer and in the facade's
`update_user` only), and that its effective `update_place` (the second
definition in the class body, lines 362-368) applies the payload to the
object without any validation or amenity handling. -/

namespace HBnBFacade2

/-- Facade `create_user` of part2/app/services/facade.py: constructs
`User(**user_data)` and adds it — no email-uniqueness lookup. -/
def create_user (st : App2State) (d : User2Payload) (fresh_id : String) :
    Except String (User2Rec × App2State) :=
  match User2.init fresh_id d.first_name d.last_name d.email d.is_admin with
  | .error e => .error e
  | .ok u => .ok (u, { st with users := dictAdd (fun x => x.id) st.users u })

/-- Facade `get_user_by_email` of part2: `user_repo.get_by_attribute` on
the stored (already normalized) email. -/
def get_user_by_email (st : App2State) (email : String) : Option User2Rec :=
  st.users.find? (fun u => u.email == email)

/-- Facade `create_place` of part2/app/services/facade.py (the effective
second definition, lines 197-227): pops `owner_id`, requires the owner to
exist, then constructs and adds the place. -/
def create_place (st : App2State) (d : Place2CreateData) (fresh_id : String) :
    Except String (PlaceRec × App2State) :=
  match st.users.find? (fun u => u.id == d.owner_id) with
  | none => .error "Owner not found"
  | some owner =>
    match Place.init fresh_id (some d.title) (some d.description) (some d.price)
        (some d.latitude) (some d.longitude) owner.id with
    | .error e => .error e
    | .ok place => .ok (place, { st with places := dictAdd (fun x => x.id) st.places place })

/-- Object update `BaseModel.update` applied to a part2 Place: each payload
key that is an attribute of the object is set raw (`setattr`), without any
validation.  The keys `owner_id` and `amenity_ids` fail the `hasattr`
check on a part2 Place (its attributes are `owner` and `amenities`), so
they are silently skipped. -/
def part2PlaceObjUpdate (p : PlaceRec) (d : PlacePayload) : PlaceRec :=
  let p := match d.title with | none => p | some v => { p with title := v }
  let p := match d.description with | none => p | some v => { p with description := v }
  let p := match d.price with | none => p | some v => { p with price := v }
  let p := match d.latitude with | none => p | some v => { p with latitude := v }
  let p := match d.longitude with | none => p | some v => { p with longitude := v }
  p

/-- Facade `update_place` of part2/app/services/facade.py (the effective
second definition, lines 362-368): looks the place up, lets the repository
apply the payload to the object, returns the place; `none` is Python
returning `None` for an unknown id.  No exception can be raised. -/
def update_place (st : App2State) (place_id : String) (d : PlacePayload) :
    Option (PlaceRec × App2State) :=
  match st.places.find? (fun p => p.id == place_id) with
  | none => none
  | some place =>
    let updated := part2PlaceObjUpdate place d
    some (updated, { st with places := listReplaceById (fun x => x.id) st.places updated })

end HBnBFacade2

/-! ## HTTP responses -/

/-- Response of a handler: the HTTP status, the error message of an error
body, and the serialized entity of a success body. -/
structure Resp (α : Type) where
  status : Nat
  error : Option String
  body : Option α
deriving DecidableEq, Repr

/-- Error response helper. -/
def errResp (α : Type) (status : Nat) (msg : String) : Resp α :=
  { status := status, error := some msg, body := none }

/-- Success response helper. -/
def okResp {α : Type} (status : Nat) (x : α) : Resp α :=
  { status := status, error := none, body := some x }

/-! ## Place endpoints of part3 (part3/app/api/v1/places.py)

`current_user` is `get_jwt_identity()`, `is_admin` is the `is_admin` JWT
claim (`claims.get('is_admin', False)`). -/

namespace PlaceApi

/-- Handler `PlaceList.post` (lines 62-109): overwrites the payload's
`owner_id` with the authenticated identity, then creates through the
facade; a `ValueError` maps to 400. -/
def post (current_user : String) (payload : PlacePayload) (st : AppState)
    (fresh_id : String) : Resp PlaceRec × AppState :=
  let place_data := { payload with owner_id := some current_user }
  match HBnBFacade.create_place st place_data fresh_id with
  | .error e => (errResp _ 400 e, st)
  | .ok (p, st2) => (okResp 201 p, st2)

/-- Handler `PlaceResource.put` (lines 203-230): 404 for an unknown place,
403 `Unauthorized action` for a non-admin non-owner, otherwise the payload
(with `owner_id` deleted) goes to the facade update. -/
def put (current_user : String) (is_admin : Bool) (place_id : String)
    (payload : PlacePayload) (st : AppState) : Resp PlaceRec × AppState :=
  match HBnBFacade.get_place st (some place_id) with
  | none => (errResp _ 404 "Place not found", st)
  | some place =>
    if !is_admin && place.owner_id != current_user then
      (errResp _ 403 "Unauthorized action", st)
    else
      let place_data := { payload with owner_id := none }
      match HBnBFacade.update_place st place_id place_data with
      | .error e => (errResp _ 400 e, st)
      | .ok none =>
        -- unreachable: the place was found above and the state is unchanged
        -- (the Python code would fail on None.to_dict() here)
        (errResp _ 500 "Internal error", st)
      | .ok (some (p, st2)) => (okResp 200 p, st2)

end PlaceApi

/-! ## Review endpoints of part5 (part5/app/api/v1/reviews.py) -/

namespace ReviewApi

/-- Handler `ReviewList.post` (lines 52-124): 404 for an unknown place,
400 `You cannot review your own place` when the authenticated user owns
the place, 400 `You have already reviewed this place` when one of the
place's stored reviews carries the requester's user id, otherwise the
payload's `user_id` is overwritten with the authenticated identity and the
review is created through the facade. -/
def post (current_user : String) (payload : ReviewPayload) (st : AppState)
    (fresh_id : String) : Resp ReviewRec × AppState :=
  match HBnBFacade.get_place st payload.place_id with
  | none => (errResp _ 404 "Place not found", st)
  | some place =>
    if place.owner_id == current_user then
      (errResp _ 400 "You cannot review your own place", st)
    else if (HBnBFacade.get_reviews_by_place st (payload.place_id.getD "")).any
        (fun r => r.user_id == current_user) then
      (errResp _ 400 "You have already reviewed this place", st)
    else
      let review_data := { payload with user_id := some current_user }
      match HBnBFacade.create_review st review_data fresh_id with
      | .error e => (errResp _ 400 e, st)
      | .ok (r, st2) => (okResp 201 r, st2)

/-- Handler `ReviewResource.put` (lines 166-242): 404 for an unknown
review, 403 `Unauthorized action` for a non-admin non-author, otherwise
the payload (with `user_id` and `place_id` deleted) goes to the facade
update. -/
def put (current_user : String) (is_admin : Bool) (review_id : String)
    (payload : ReviewPayload) (st : AppState) : Resp ReviewRec × AppState :=
  match HBnBFacade.get_review st review_id with
  | none => (errResp _ 404 "Review not found", st)
  | some review =>
    if !is_admin && review.user_id != current_user then
      (errResp _ 403 "Unauthorized action", st)
    else
      let review_data := { payload with user_id := none, place_id := none }
      match HBnBFacade.update_review st review_id review_data with
      | .error e => (errResp _ 400 e, st)
      | .ok none =>
        -- unreachable: the review was found above and the state is unchanged
        (errResp _ 500 "Internal error", st)
      | .ok (some (r, st2)) => (okResp 200 r, st2)

end ReviewApi

/-! ## User endpoint of part3 (part3/app/api/v1/users.py) -/

namespace UserApi

/-- Tail of `UserResource.put`: the `try: facade.update_user(...)` block
shared by every authorized path. -/
def putUpdate (bcryptHash : String → String) (user_id : String)
    (payload : UserPayload) (st : AppState) : Resp UserRec × AppState :=
  match HBnBFacade.update_user bcryptHash st user_id payload with
  | .error e => (errResp _ 400 e, st)
  | .ok none => (errResp _ 404 "User not found", st)
  | .ok (some (u, st2)) => (okResp 200 u, st2)

/-- Handler `UserResource.put` (lines 227-268): a non-admin may only
target their own id (403 `Unauthorized action` otherwise) and may not send
an `email` or `password` key (400 `You cannot modify email or password`);
an admin sending an `email` key is rejected with 400 `Email already in
use` when a different user holds that email; every surviving request goes
to the facade update. -/
def put (bcryptHash : String → String) (current_user : String) (is_admin : Bool)
    (user_id : String) (payload : UserPayload) (st : AppState) :
    Resp UserRec × AppState :=
  if !is_admin && current_user != user_id then
    (errResp _ 403 "Unauthorized action", st)
  else if !is_admin && payload.email.isSome then
    (errResp _ 400 "You cannot modify email or password", st)
  else if !is_admin && payload.password.isSome then
    (errResp _ 400 "You cannot modify email or password", st)
  else if is_admin then
    match payload.email with
    | some new_email =>
      match HBnBFacade.get_user_by_email st new_email with
      | some existing =>
        if existing.id != user_id then (errResp _ 400 "Email already in use", st)
        else putUpdate bcryptHash user_id payload st
      | none => putUpdate bcryptHash user_id payload st
    | none => putUpdate bcryptHash user_id payload st
  else
    putUpdate bcryptHash user_id payload st

end UserApi

/-! ## Validator characterizations (helper lemmas) -/

/-- A present title validates exactly when its stripped form is nonempty
and at most 100 characters. -/
theorem validate_title_isOk (t : String) :
    (Place._validate_title (some t)).isOk = true ↔
      pyStrip t ≠ "" ∧ (pyStrip t).length ≤ 100 := by
  unfold Place._validate_title
  by_cases h0 : t = ""
  · subst h0
    simp [pyStrip, pyStripList, Except.isOk, Except.toBool]
  · simp only [h0, if_false]
    by_cases h1 : pyStrip t = ""
    · simp [h1, Except.isOk, Except.toBool]
    · simp only [h1, if_false]
      by_cases h2 : 100 < (pyStrip t).length
      · simp [h2, Except.isOk, Except.toBool, Nat.not_le.mpr h2]
      · simp [h2, Except.isOk, Except.toBool, h1, Nat.not_lt.mp h2]

/-- A present title validates to its stripped form. -/
theorem validate_title_ok_val (t v : String)
    (h : Place._validate_title (some t) = .ok v) : v = pyStrip t := by
  unfold Place._validate_title at h
  by_cases h0 : t = "" <;> simp [h0] at h
  by_cases h1 : pyStrip t = "" <;> simp [h1] at h
  by_cases h2 : 100 < (pyStrip t).length <;> simp [h2] at h
  exact h.symm

/-- A present text validates exactly when its stripped form is nonempty
and at most 1000 characters. -/
theorem validate_text_isOk (t : String) :
    (Review._validate_text (some t)).isOk = true ↔
      pyStrip t ≠ "" ∧ (pyStrip t).length ≤ 1000 := by
  unfold Review._validate_text
  by_cases h0 : t = ""
  · subst h0
    simp [pyStrip, pyStripList, Except.isOk, Except.toBool]
  · simp only [h0, if_false]
    by_cases h1 : pyStrip t = ""
    · simp [h1, Except.isOk, Except.toBool]
    · simp only [h1, if_false]
      by_cases h2 : 1000 < (pyStrip t).length
      · simp [h2, Except.isOk, Except.toBool, Nat.not_le.mpr h2]
      · simp [h2, Except.isOk, Except.toBool, h1, Nat.not_lt.mp h2]

/-- A present text validates to its stripped form. -/
theorem validate_text_ok_val (t v : String)
    (h : Review._validate_text (some t) = .ok v) : v = pyStrip t := by
  unfold Review._validate_text at h
  by_cases h0 : t = "" <;> simp [h0] at h
  by_cases h1 : pyStrip t = "" <;> simp [h1] at h
  by_cases h2 : 1000 < (pyStrip t).length <;> simp [h2] at h
  exact h.symm


/-- A present price validates exactly when it is positive. -/
theorem validate_price_isOk (p : Rat) :
    (Place._validate_price (some p)).isOk = true ↔ 0 < p := by
  unfold Place._validate_price
  by_cases hp : p ≤ 0 <;> simp [hp, Except.isOk, Except.toBool]
  exact not_le.mp hp

/-- A present price validates to itself. -/
theorem validate_price_ok_val (p v : Rat)
    (h : Place._validate_price (some p) = .ok v) : v = p := by
  unfold Place._validate_price at h
  by_cases hp : p ≤ 0 <;> simp [hp] at h
  exact h.symm

/-- A present latitude validates exactly when it is within [-90, 90]. -/
theorem validate_latitude_isOk (la : Rat) :
    (Place._validate_latitude (some la)).isOk = true ↔ -90 ≤ la ∧ la ≤ 90 := by
  unfold Place._validate_latitude
  by_cases h : (la < -90 || 90 < la) = true
  · simp only [h, if_true, Except.isOk, Except.toBool]
    simp only [Bool.or_eq_true, decide_eq_true_eq] at h
    constructor
    · intro hc; exact absurd hc (by simp)
    · rintro ⟨h1, h2⟩
      rcases h with h | h
      · exact absurd h1 (not_le.mpr h)
      · exact absurd h2 (not_le.mpr h)
  · simp only [Bool.not_eq_true] at h
    simp only [h, if_false, Except.isOk, Except.toBool]
    simp only [Bool.or_eq_false_iff, decide_eq_false_iff_not] at h
    simp [not_lt.mp h.1, not_lt.mp h.2]

/-- A present latitude validates to itself. -/
theorem validate_latitude_ok_val (la v : Rat)
    (h : Place._validate_latitude (some la) = .ok v) : v = la := by
  unfold Place._validate_latitude at h
  by_cases hc : (la < -90 || 90 < la) = true
  · simp [hc] at h
  · simp only [Bool.not_eq_true] at hc
    simp [hc] at h
    exact h.symm

/-- A present longitude validates exactly when it is within [-180, 180]. -/
theorem validate_longitude_isOk (lo : Rat) :
    (Place._validate_longitude (some lo)).isOk = true ↔ -180 ≤ lo ∧ lo ≤ 180 := by
  unfold Place._validate_longitude
  by_cases h : (lo < -180 || 180 < lo) = true
  · simp only [h, if_true, Except.isOk, Except.toBool]
    simp only [Bool.or_eq_true, decide_eq_true_eq] at h
    constructor
    · intro hc; exact absurd hc (by simp)
    · rintro ⟨h1, h2⟩
      rcases h with h | h
      · exact absurd h1 (not_le.mpr h)
      · exact absurd h2 (not_le.mpr h)
  · simp only [Bool.not_eq_true] at h
    simp only [h, if_false, Except.isOk, Except.toBool]
    simp only [Bool.or_eq_false_iff, decide_eq_false_iff_not] at h
    simp [not_lt.mp h.1, not_lt.mp h.2]

/-- A present longitude validates to itself. -/
theorem validate_longitude_ok_val (lo v : Rat)
    (h : Place._validate_longitude (some lo) = .ok v) : v = lo := by
  unfold Place._validate_longitude at h
  by_cases hc : (lo < -180 || 180 < lo) = true
  · simp [hc] at h
  · simp only [Bool.not_eq_true] at hc
    simp [hc] at h
    exact h.symm

/-- A present rating validates exactly when it is an integer in [1, 5]. -/
theorem validate_rating_isOk (rv : PyIntVal) :
    (Review._validate_rating (some rv)).isOk = true ↔
      ∃ n : Int, rv = .int n ∧ 1 ≤ n ∧ n ≤ 5 := by
  rcases rv with n | _
  · unfold Review._validate_rating
    by_cases h : (n < 1 || 5 < n) = true
    · simp only [h, if_true, Except.isOk, Except.toBool]
      simp only [Bool.or_eq_true, decide_eq_true_eq] at h
      constructor
      · intro hc; exact absurd hc (by simp)
      · rintro ⟨m, hm, h1, h2⟩
        have : m = n := by injection hm with hmn; exact hmn.symm
        subst this
        rcases h with h | h
        · exact absurd h1 (not_le.mpr h)
        · exact absurd h2 (not_le.mpr h)
    · simp only [Bool.not_eq_true] at h
      simp only [h, if_false, Except.isOk, Except.toBool]
      simp only [Bool.or_eq_false_iff, decide_eq_false_iff_not] at h
      constructor
      · intro _; exact ⟨n, rfl, not_lt.mp h.1, not_lt.mp h.2⟩
      · intro _; rfl
  · simp only [Review._validate_rating, Except.isOk, Except.toBool]
    constructor
    · intro hc; exact absurd hc (by simp)
    · rintro ⟨n, hn, _⟩; exact absurd hn (by simp)

/-- A present integer rating in range validates to itself. -/
theorem validate_rating_ok_val (rv : PyIntVal) (n : Int)
    (h : Review._validate_rating (some rv) = .ok n) :
    rv = .int n ∧ 1 ≤ n ∧ n ≤ 5 := by
  rcases rv with m | _
  · unfold Review._validate_rating at h
    by_cases hc : (m < 1 || 5 < m) = true
    · simp [hc] at h
    · simp only [Bool.not_eq_true] at hc
      simp [hc] at h
      simp only [Bool.or_eq_false_iff, decide_eq_false_iff_not] at hc
      subst h
      exact ⟨rfl, not_lt.mp hc.1, not_lt.mp hc.2⟩
  · simp [Review._validate_rating] at h

/-- Place construction succeeds exactly when every validator accepts. -/
theorem place_init_isOk (fid t d : String) (p la lo : Rat) (oid : String) :
    (Place.init fid (some t) (some d) (some p) (some la) (some lo) oid).isOk = true ↔
      (0 < p ∧ -90 ≤ la ∧ la ≤ 90 ∧ -180 ≤ lo ∧ lo ≤ 180 ∧
        pyStrip t ≠ "" ∧ (pyStrip t).length ≤ 100) := by
  unfold Place.init
  rcases hT : Place._validate_title (some t) with eT | vT
  · have h := validate_title_isOk t
    rw [hT] at h
    simp only [Except.isOk, Except.toBool, Bool.false_eq_true, false_iff] at h ⊢
    tauto
  · have ht := (validate_title_isOk t).mp (by rw [hT]; rfl)
    rcases hP : Place._validate_price (some p) with eP | vP
    · have h := validate_price_isOk p
      rw [hP] at h
      simp only [Except.isOk, Except.toBool, Bool.false_eq_true, false_iff] at h ⊢
      tauto
    · have hp := (validate_price_isOk p).mp (by rw [hP]; rfl)
      rcases hLa : Place._validate_latitude (some la) with eLa | vLa
      · have h := validate_latitude_isOk la
        rw [hLa] at h
        simp only [Except.isOk, Except.toBool, Bool.false_eq_true, false_iff] at h ⊢
        tauto
      · have hla := (validate_latitude_isOk la).mp (by rw [hLa]; rfl)
        rcases hLo : Place._validate_longitude (some lo) with eLo | vLo
        · have h := validate_longitude_isOk lo
          rw [hLo] at h
          simp only [Except.isOk, Except.toBool, Bool.false_eq_true, false_iff] at h ⊢
          tauto
        · have hlo := (validate_longitude_isOk lo).mp (by rw [hLo]; rfl)
          simp only [Except.isOk, Except.toBool, true_iff]
          exact ⟨hp, hla.1, hla.2, hlo.1, hlo.2, ht.1, ht.2⟩

/-- Values stored by a successful place construction. -/
theorem place_init_ok_val (fid t d : String) (p la lo : Rat) (oid : String) (pl : PlaceRec)
    (h : Place.init fid (some t) (some d) (some p) (some la) (some lo) oid = .ok pl) :
    pl = { id := fid, title := pyStrip t, description := d, price := p,
           latitude := la, longitude := lo, owner_id := oid, amenities := [] } := by
  unfold Place.init at h
  rcases hT : Place._validate_title (some t) with eT | vT <;> rw [hT] at h
  · simp at h
  · rcases hP : Place._validate_price (some p) with eP | vP <;> rw [hP] at h
    · simp at h
    · rcases hLa : Place._validate_latitude (some la) with eLa | vLa <;> rw [hLa] at h
      · simp at h
      · rcases hLo : Place._validate_longitude (some lo) with eLo | vLo <;> rw [hLo] at h
        · simp at h
        · simp only [Except.ok.injEq] at h
          rw [← h, validate_title_ok_val t vT hT, validate_price_ok_val p vP hP,
            validate_latitude_ok_val la vLa hLa, validate_longitude_ok_val lo vLo hLo]
          rfl

/-- Review construction succeeds exactly when both validators accept. -/
theorem review_init_isOk (fid txt : String) (rv : PyIntVal) (uid pid : String) :
    (Review.init fid (some txt) (some rv) uid pid).isOk = true ↔
      (pyStrip txt ≠ "" ∧ (pyStrip txt).length ≤ 1000 ∧
        ∃ n : Int, rv = .int n ∧ 1 ≤ n ∧ n ≤ 5) := by
  unfold Review.init
  rcases hT : Review._validate_text (some txt) with eT | vT
  · have h := validate_text_isOk txt
    rw [hT] at h
    simp only [Except.isOk, Except.toBool, Bool.false_eq_true, false_iff] at h ⊢
    tauto
  · have ht := (validate_text_isOk txt).mp (by rw [hT]; rfl)
    rcases hR : Review._validate_rating (some rv) with eR | nR
    · have h := validate_rating_isOk rv
      rw [hR] at h
      simp only [Except.isOk, Except.toBool, Bool.false_eq_true, false_iff] at h ⊢
      rintro ⟨h1, h2, n, hn, hn1, hn2⟩
      exact h ⟨n, hn, hn1, hn2⟩
    · have hr := validate_rating_ok_val rv nR hR
      simp only [Except.isOk, Except.toBool, true_iff]
      exact ⟨ht.1, ht.2, nR, hr.1, hr.2.1, hr.2.2⟩

/-- Values stored by a successful review construction. -/
theorem review_init_ok_val (fid txt : String) (rv : PyIntVal) (uid pid : String) (r : ReviewRec)
    (h : Review.init fid (some txt) (some rv) uid pid = .ok r) :
    r.text = pyStrip txt ∧ rv = .int r.rating ∧ 1 ≤ r.rating ∧ r.rating ≤ 5 ∧
      r.id = fid ∧ r.user_id = uid ∧ r.place_id = pid := by
  unfold Review.init at h
  rcases hT : Review._validate_text (some txt) with eT | vT <;> rw [hT] at h
  · simp at h
  · rcases hR : Review._validate_rating (some rv) with eR | nR <;> rw [hR] at h
    · simp at h
    · simp only [Except.ok.injEq] at h
      have hr := validate_rating_ok_val rv nR hR
      rw [← h]
      exact ⟨validate_text_ok_val txt vT hT ▸ rfl, hr.1, hr.2.1, hr.2.2, rfl, rfl, rfl⟩

/-- Claim C8: place construction raises ValueError exactly when (for
numeric inputs) the price is nonpositive, the latitude falls outside
[-90.0, 90.0], the longitude falls outside [-180.0, 180.0], or the
(stripped) title is empty or longer than 100 characters; review
construction raises exactly when the rating is not an integer in [1, 5]
or the (stripped) text is empty or longer than 1000 characters; on
success the validated values are stored unchanged (strings stripped). -/
theorem claim_C8_entity_validation :
    (∀ (fid t d : String) (p la lo : Rat) (oid : String),
      ((Place.init fid (some t) (some d) (some p) (some la) (some lo) oid).isOk = true ↔
        (0 < p ∧ -90 ≤ la ∧ la ≤ 90 ∧ -180 ≤ lo ∧ lo ≤ 180 ∧
          pyStrip t ≠ "" ∧ (pyStrip t).length ≤ 100)) ∧
      (∀ pl, Place.init fid (some t) (some d) (some p) (some la) (some lo) oid = .ok pl →
        pl.title = pyStrip t ∧ pl.description = d ∧ pl.price = p ∧
          pl.latitude = la ∧ pl.longitude = lo ∧ pl.owner_id = oid)) ∧
    (∀ (fid txt : String) (rv : PyIntVal) (uid pid : String),
      ((Review.init fid (some txt) (some rv) uid pid).isOk = true ↔
        (pyStrip txt ≠ "" ∧ (pyStrip txt).length ≤ 1000 ∧
          ∃ n : Int, rv = .int n ∧ 1 ≤ n ∧ n ≤ 5)) ∧
      (∀ r, Review.init fid (some txt) (some rv) uid pid = .ok r →
        r.text = pyStrip txt ∧ rv = .int r.rating ∧ 1 ≤ r.rating ∧ r.rating ≤ 5 ∧
          r.user_id = uid ∧ r.place_id = pid)) := by
  constructor
  · intro fid t d p la lo oid
    refine ⟨place_init_isOk fid t d p la lo oid, ?_⟩
    intro pl h
    rw [place_init_ok_val fid t d p la lo oid pl h]
    exact ⟨rfl, rfl, rfl, rfl, rfl, rfl⟩
  · intro fid txt rv uid pid
    refine ⟨review_init_isOk fid txt rv uid pid, ?_⟩
    intro r h
    have hr := review_init_ok_val fid txt rv uid pid r h
    exact ⟨hr.1, hr.2.1, hr.2.2.1, hr.2.2.2.1, hr.2.2.2.2.2.1, hr.2.2.2.2.2.2⟩

/-- Witness for C8: concrete valid inputs construct, and the stored review
text is the stripped input. -/
theorem claim_C8_entity_validation_witness :
    (Place.init "pl-1" (some "Beach House") (some "desc") (some 150) (some 34)
        (some (-118)) "u-1").isOk = true ∧
    (Review.init "rv-1" (some " Great place! ") (some (PyIntVal.int 5)) "u-2" "pl-1").isOk
        = true ∧
    (⟨"rv-1", "Great place!", 5, "u-2", "pl-1"⟩ : ReviewRec).text
        = pyStrip " Great place! " := by
  refine ⟨?_, ?_, ?_⟩
  · exact (claim_C8_entity_validation.1 "pl-1" "Beach House" "desc" 150 34 (-118) "u-1").1.mpr
      (by decide)
  · exact (claim_C8_entity_validation.2 "rv-1" " Great place! " (PyIntVal.int 5) "u-2"
      "pl-1").1.mpr ⟨by decide, by decide, 5, rfl, by decide, by decide⟩
  · have h := (claim_C8_entity_validation.2 "rv-1" " Great place! " (PyIntVal.int 5) "u-2"
      "pl-1").2 ⟨"rv-1", "Great place!", 5, "u-2", "pl-1"⟩ rfl
    exact h.1

/-- Claim C10: `User.to_dict` serializes exactly the keys id, first_name,
last_name, email, is_admin, created_at and updated_at — never the password
hash — and two users differing only in their password serialize to the
same dictionary. -/
theorem claim_C10_to_dict_excludes_password (u : UserRec) (pw : String) :
    (User.to_dict u).map Prod.fst =
      ["id", "first_name", "last_name", "email", "is_admin", "created_at", "updated_at"] ∧
    "password" ∉ (User.to_dict u).map Prod.fst ∧
    User.to_dict { u with password := pw } = User.to_dict u := by
  refine ⟨rfl, ?_, rfl⟩
  intro hmem
  rw [show (User.to_dict u).map Prod.fst =
      ["id", "first_name", "last_name", "email", "is_admin", "created_at", "updated_at"]
    from rfl] at hmem
  simp at hmem

/-! ## Properties of the in-memory repository -/

/-- Adding stores the object under its id. -/
theorem repo_add_get_self (st : List PyObj) (obj : PyObj) :
    InMemoryRepository.get (InMemoryRepository.add st obj) obj.id = some obj := by
  unfold InMemoryRepository.add InMemoryRepository.get
  split
  next h =>
    induction st with
    | nil => simp at h
    | cons x xs ih =>
      simp only [List.map_cons]
      by_cases hx : (x.id == obj.id) = true
      · simp only [hx, if_true]
        rw [List.find?_cons_of_pos]
        simp
      · simp only [hx, if_false]
        rw [List.find?_cons_of_neg]
        · apply ih
          simp only [List.any_cons, hx, Bool.false_or] at h
          exact h
        · simp [hx]
  next h =>
    rw [List.find?_append]
    have hnone : st.find? (fun o => o.id == obj.id) = none := by
      rw [List.find?_eq_none]
      intro x hx hc
      exact h (List.any_eq_true.mpr ⟨x, hx, hc⟩)
    rw [hnone]
    simp

/-- Replacing the object stored under another id does not change a lookup. -/
theorem find_map_replace_other (st : List PyObj) (obj : PyObj) (i : String) (hne : i ≠ obj.id) :
    (st.map (fun o => if (o.id == obj.id) = true then obj else o)).find? (fun o => o.id == i)
      = st.find? (fun o => o.id == i) := by
  induction st with
  | nil => rfl
  | cons x xs ih =>
    simp only [List.map_cons]
    by_cases hx : (x.id == obj.id) = true
    · have hxid : x.id = obj.id := by simpa using hx
      have h1 : (obj.id == i) = false := by
        rw [beq_eq_false_iff_ne]
        intro hc; exact hne hc.symm
      have h2 : (x.id == i) = false := by
        rw [beq_eq_false_iff_ne, hxid]
        intro hc; exact hne hc.symm
      simp only [hx, if_true, List.find?_cons, h1, h2]
      exact ih
    · simp only [Bool.not_eq_true] at hx
      simp only [hx, Bool.false_eq_true, if_false, List.find?_cons]
      by_cases hp : (x.id == i) = true
      · simp only [hp]
      · simp only [Bool.not_eq_true] at hp
        simp only [hp]
        exact ih

/-- Adding one object does not affect lookups of other ids. -/
theorem repo_add_get_other (st : List PyObj) (obj : PyObj) (i : String) (hne : i ≠ obj.id) :
    InMemoryRepository.get (InMemoryRepository.add st obj) i = InMemoryRepository.get st i := by
  unfold InMemoryRepository.add InMemoryRepository.get
  split
  next h => exact find_map_replace_other st obj i hne
  next h =>
    rw [List.find?_append]
    have hobj : (List.find? (fun o => o.id == i) [obj]) = none := by
      rw [List.find?_eq_none]
      intro x hx hc
      rw [List.mem_singleton.mp hx] at hc
      have hci : obj.id = i := by simpa using hc
      exact hne hci.symm
    rw [hobj, Option.or_none]

/-- The empty repository stores nothing. -/
theorem repo_get_empty (i : String) : InMemoryRepository.get [] i = none := rfl

/-- After a delete, the deleted id is gone. -/
theorem repo_delete_get_self (st : List PyObj) (i : String) :
    InMemoryRepository.get (InMemoryRepository.delete st i) i = none := by
  unfold InMemoryRepository.delete InMemoryRepository.get
  rw [List.find?_eq_none]
  intro x hx hc
  have hkeep := (List.mem_filter.mp hx).2
  simp only [bne_iff_ne, ne_eq] at hkeep
  exact hkeep (by simpa using hc)

/-- Deleting one id does not affect lookups of other ids. -/
theorem repo_delete_get_other (st : List PyObj) (i j : String) (hne : j ≠ i) :
    InMemoryRepository.get (InMemoryRepository.delete st i) j = InMemoryRepository.get st j := by
  unfold InMemoryRepository.delete InMemoryRepository.get
  induction st with
  | nil => rfl
  | cons x xs ih =>
    simp only [List.filter_cons]
    by_cases hx : (x.id != i) = true
    · simp only [hx, if_true, List.find?_cons]
      by_cases hp : (x.id == j) = true
      · simp only [hp]
      · simp only [Bool.not_eq_true] at hp
        simp only [hp]
        exact ih
    · simp only [Bool.not_eq_true] at hx
      simp only [hx, Bool.false_eq_true, if_false]
      have hxi : x.id = i := by
        simpa using hx
      have hp : (x.id == j) = false := by
        rw [beq_eq_false_iff_ne, hxi]
        intro hc; exact hne hc.symm
      simp only [List.find?_cons, hp]
      exact ih

/-- Deleting an absent id is a no-op. -/
theorem repo_delete_absent (st : List PyObj) (i : String)
    (h : InMemoryRepository.get st i = none) :
    InMemoryRepository.delete st i = st := by
  unfold InMemoryRepository.get at h
  unfold InMemoryRepository.delete
  rw [List.find?_eq_none] at h
  apply List.filter_eq_self.mpr
  intro x hx
  have hne := h x hx
  simp only [bne_iff_ne, ne_eq, decide_eq_true_eq]
  intro hc
  exact hne (by simp [hc])

/-- Claim C7: the in-memory repository behaves as a map keyed by id —
after add(obj), get(obj.id) returns obj and other ids are unaffected; get
on the empty store or after delete of the id returns None; delete removes
exactly that id and is a no-op when the id is absent; get_by_attribute
returns the first stored object whose attribute equals the value, and None
when no stored object matches. -/
theorem claim_C7_inmemory_repository :
    (∀ (st : List PyObj) (obj : PyObj),
      InMemoryRepository.get (InMemoryRepository.add st obj) obj.id = some obj) ∧
    (∀ (st : List PyObj) (obj : PyObj) (i : String), i ≠ obj.id →
      InMemoryRepository.get (InMemoryRepository.add st obj) i = InMemoryRepository.get st i) ∧
    (∀ i : String, InMemoryRepository.get [] i = none) ∧
    (∀ (st : List PyObj) (i : String),
      InMemoryRepository.get (InMemoryRepository.delete st i) i = none) ∧
    (∀ (st : List PyObj) (i j : String), j ≠ i →
      InMemoryRepository.get (InMemoryRepository.delete st i) j = InMemoryRepository.get st j) ∧
    (∀ (st : List PyObj) (i : String), InMemoryRepository.get st i = none →
      InMemoryRepository.delete st i = st) ∧
    (∀ (st : List PyObj) (a v : String), (∀ o ∈ st, o.getattr a ≠ v) →
      InMemoryRepository.get_by_attribute st a v = none) ∧
    (∀ (st : List PyObj) (a v : String) (o : PyObj),
      InMemoryRepository.get_by_attribute st a v = some o →
      o.getattr a = v ∧ ∃ st1 st2, st = st1 ++ o :: st2 ∧ ∀ x ∈ st1, x.getattr a ≠ v) := by
  refine ⟨repo_add_get_self, repo_add_get_other, repo_get_empty, repo_delete_get_self,
    repo_delete_get_other, repo_delete_absent, ?_, ?_⟩
  · intro st a v h
    unfold InMemoryRepository.get_by_attribute
    rw [List.find?_eq_none]
    intro x hx hc
    exact h x hx (by simpa using hc)
  · intro st a v o h
    unfold InMemoryRepository.get_by_attribute at h
    rcases List.find?_eq_some.mp h with ⟨hpred, st1, st2, hsplit, hpre⟩
    refine ⟨by simpa using hpred, st1, st2, hsplit, ?_⟩
    intro x hx hc
    have hxp := hpre x hx
    rw [hc] at hxp
    simp at hxp

/-- Witness for C7 at a concrete two-object store. -/
theorem claim_C7_inmemory_repository_witness :
    InMemoryRepository.get
        (InMemoryRepository.add [⟨"a", [("email", "x@y.co")]⟩] ⟨"b", [("email", "z@y.co")]⟩)
        "x" = InMemoryRepository.get [⟨"a", [("email", "x@y.co")]⟩] "x" ∧
    InMemoryRepository.delete [(⟨"a", [("email", "x@y.co")]⟩ : PyObj)] "b"
        = [⟨"a", [("email", "x@y.co")]⟩] ∧
    InMemoryRepository.get_by_attribute
        [(⟨"a", [("email", "x@y.co")]⟩ : PyObj)] "email" "nobody@y.co" = none := by
  refine ⟨?_, ?_, ?_⟩
  · exact claim_C7_inmemory_repository.2.1 [⟨"a", [("email", "x@y.co")]⟩]
      ⟨"b", [("email", "z@y.co")]⟩ "x" (by decide)
  · exact claim_C7_inmemory_repository.2.2.2.2.2.1 [⟨"a", [("email", "x@y.co")]⟩] "b" (by decide)
  · exact claim_C7_inmemory_repository.2.2.2.2.2.2.1 [⟨"a", [("email", "x@y.co")]⟩]
      "email" "nobody@y.co" (by decide)

/-! ## Claims about the review endpoints -/

/-- Claim C2: an authenticated review POST on an existing place owned by
the requester answers 400 with error `You cannot review your own place`
and leaves the state (review repository included) unchanged. -/
theorem claim_C2_no_self_review (current_user : String) (payload : ReviewPayload)
    (st : AppState) (fresh_id pid : String) (place : PlaceRec)
    (hpid : payload.place_id = some pid)
    (hplace : st.places.find? (fun p => p.id == pid) = some place)
    (howner : place.owner_id = current_user) :
    ReviewApi.post current_user payload st fresh_id =
      (errResp ReviewRec 400 "You cannot review your own place", st) := by
  unfold ReviewApi.post
  simp only [HBnBFacade.get_place, hpid, hplace, howner, beq_self_eq_true, if_true]

/-- Claim C3: an authenticated review POST on an existing place not owned
by the requester answers 400 `You have already reviewed this place` and
leaves the state unchanged when a stored review of the place carries the
requester's user id; otherwise (requester stored, payload valid) the
review is created with status 201, its author being the requester. -/
theorem claim_C3_duplicate_review (current_user : String) (payload : ReviewPayload)
    (st : AppState) (fresh_id pid : String) (place : PlaceRec)
    (hpid : payload.place_id = some pid)
    (hplace : st.places.find? (fun p => p.id == pid) = some place)
    (hnotown : place.owner_id ≠ current_user) :
    ((∃ r ∈ st.reviews, r.place_id = pid ∧ r.user_id = current_user) →
      ReviewApi.post current_user payload st fresh_id =
        (errResp ReviewRec 400 "You have already reviewed this place", st)) ∧
    (∀ (user : UserRec) (t : String) (n : Int),
      (∀ r ∈ st.reviews, r.place_id = pid → r.user_id ≠ current_user) →
      st.users.find? (fun u => u.id == current_user) = some user →
      Review._validate_text payload.text = .ok t →
      Review._validate_rating payload.rating = .ok n →
      ReviewApi.post current_user payload st fresh_id =
        (okResp 201 (⟨fresh_id, t, n, current_user, pid⟩ : ReviewRec),
          { st with reviews :=
              st.reviews ++ [⟨fresh_id, t, n, current_user, pid⟩] })) := by
  have hown : (place.owner_id == current_user) = false := by
    rw [beq_eq_false_iff_ne]; exact hnotown
  constructor
  · rintro ⟨r, hr, hrpid, hruid⟩
    unfold ReviewApi.post
    simp only [HBnBFacade.get_place, hpid, hplace, hown, Bool.false_eq_true, if_false,
      HBnBFacade.get_reviews_by_place, Option.getD_some]
    have hany : ((st.reviews.filter (fun x => x.place_id == pid)).any
        (fun x => x.user_id == current_user)) = true := by
      rw [List.any_eq_true]
      exact ⟨r, List.mem_filter.mpr ⟨hr, by simp [hrpid]⟩, by simp [hruid]⟩
    simp only [hany, if_true]
  · intro user t n hnodup huser htext hrating
    unfold ReviewApi.post
    simp only [HBnBFacade.get_place, hpid, hplace, hown, Bool.false_eq_true, if_false,
      HBnBFacade.get_reviews_by_place, Option.getD_some]
    have hany : ((st.reviews.filter (fun x => x.place_id == pid)).any
        (fun x => x.user_id == current_user)) = false := by
      rw [Bool.eq_false_iff]
      intro hc
      rcases List.any_eq_true.mp hc with ⟨r, hrmem, hruid⟩
      rcases List.mem_filter.mp hrmem with ⟨hrin, hrpid⟩
      exact hnodup r hrin (by simpa using hrpid) (by simpa using hruid)
    simp only [hany, Bool.false_eq_true, if_false]
    unfold HBnBFacade.create_review
    simp only [Option.some_bind, huser, hpid, hplace, Option.getD_some]
    unfold Review.init
    rw [htext, hrating]

/-- Witness for C2: the owner of place p1 tries to review it. -/
theorem claim_C2_no_self_review_witness :
    ReviewApi.post "u1"
        ⟨some "Nice place", some (PyIntVal.int 5), none, some "p1"⟩
        ⟨[], [⟨"p1", "Beach", "", 100, 10, 20, "u1", []⟩], [], []⟩ "r9" =
      (errResp ReviewRec 400 "You cannot review your own place",
        ⟨[], [⟨"p1", "Beach", "", 100, 10, 20, "u1", []⟩], [], []⟩) :=
  claim_C2_no_self_review "u1" ⟨some "Nice place", some (PyIntVal.int 5), none, some "p1"⟩
    ⟨[], [⟨"p1", "Beach", "", 100, 10, 20, "u1", []⟩], [], []⟩ "r9" "p1"
    ⟨"p1", "Beach", "", 100, 10, 20, "u1", []⟩ rfl rfl rfl

/-- Witness for C3: user u2 already reviewed p1 and is rejected; user u3
has not and the review is created with author u3. -/
theorem claim_C3_duplicate_review_witness :
    ReviewApi.post "u2"
        ⟨some "Again", some (PyIntVal.int 4), none, some "p1"⟩
        ⟨[⟨"u2", "Bo", "B", "bo@x.co", "h", false, "t0", "t0"⟩],
         [⟨"p1", "Beach", "", 100, 10, 20, "u1", []⟩], [],
         [⟨"r1", "Old", 3, "u2", "p1"⟩]⟩ "r9" =
      (errResp ReviewRec 400 "You have already reviewed this place",
        ⟨[⟨"u2", "Bo", "B", "bo@x.co", "h", false, "t0", "t0"⟩],
         [⟨"p1", "Beach", "", 100, 10, 20, "u1", []⟩], [],
         [⟨"r1", "Old", 3, "u2", "p1"⟩]⟩) ∧
    ReviewApi.post "u3"
        ⟨some " Lovely ", some (PyIntVal.int 4), some "ignored", some "p1"⟩
        ⟨[⟨"u3", "Cy", "C", "cy@x.co", "h", false, "t0", "t0"⟩],
         [⟨"p1", "Beach", "", 100, 10, 20, "u1", []⟩], [],
         [⟨"r1", "Old", 3, "u2", "p1"⟩]⟩ "r9" =
      (okResp 201 (⟨"r9", "Lovely", 4, "u3", "p1"⟩ : ReviewRec),
        ⟨[⟨"u3", "Cy", "C", "cy@x.co", "h", false, "t0", "t0"⟩],
         [⟨"p1", "Beach", "", 100, 10, 20, "u1", []⟩], [],
         [⟨"r1", "Old", 3, "u2", "p1"⟩, ⟨"r9", "Lovely", 4, "u3", "p1"⟩]⟩) := by
  constructor
  · exact (claim_C3_duplicate_review "u2"
      ⟨some "Again", some (PyIntVal.int 4), none, some "p1"⟩
      ⟨[⟨"u2", "Bo", "B", "bo@x.co", "h", false, "t0", "t0"⟩],
       [⟨"p1", "Beach", "", 100, 10, 20, "u1", []⟩], [],
       [⟨"r1", "Old", 3, "u2", "p1"⟩]⟩ "r9" "p1"
      ⟨"p1", "Beach", "", 100, 10, 20, "u1", []⟩ rfl rfl (by decide)).1
      ⟨⟨"r1", "Old", 3, "u2", "p1"⟩, by decide, rfl, rfl⟩
  · exact (claim_C3_duplicate_review "u3"
      ⟨some " Lovely ", some (PyIntVal.int 4), some "ignored", some "p1"⟩
      ⟨[⟨"u3", "Cy", "C", "cy@x.co", "h", false, "t0", "t0"⟩],
       [⟨"p1", "Beach", "", 100, 10, 20, "u1", []⟩], [],
       [⟨"r1", "Old", 3, "u2", "p1"⟩]⟩ "r9" "p1"
      ⟨"p1", "Beach", "", 100, 10, 20, "u1", []⟩ rfl rfl (by decide)).2
      ⟨"u3", "Cy", "C", "cy@x.co", "h", false, "t0", "t0"⟩ "Lovely" 4
      (by decide) rfl rfl rfl

/-- A successfully constructed place records the given owner id. -/
theorem place_init_owner (fid : String) (t d : Option String) (p la lo : Option Rat)
    (oid : String) (pl : PlaceRec) (h : Place.init fid t d p la lo oid = .ok pl) :
    pl.owner_id = oid := by
  unfold Place.init at h
  rcases h1 : Place._validate_title t with e | v <;> rw [h1] at h
  · simp at h
  · rcases h2 : Place._validate_price p with e | v2 <;> rw [h2] at h
    · simp at h
    · rcases h3 : Place._validate_latitude la with e | v3 <;> rw [h3] at h
      · simp at h
      · rcases h4 : Place._validate_longitude lo with e | v4 <;> rw [h4] at h
        · simp at h
        · simp only [Except.ok.injEq] at h
          rw [← h]

/-- A successfully constructed review records the given author id. -/
theorem review_init_user (fid : String) (txt : Option String) (rv : Option PyIntVal)
    (uid pid : String) (r : ReviewRec) (h : Review.init fid txt rv uid pid = .ok r) :
    r.user_id = uid := by
  unfold Review.init at h
  rcases h1 : Review._validate_text txt with e | v <;> rw [h1] at h
  · simp at h
  · rcases h2 : Review._validate_rating rv with e | n <;> rw [h2] at h
    · simp at h
    · simp only [Except.ok.injEq] at h
      rw [← h]

/-- A successful facade create_place appends one place carrying the
payload's owner id. -/
theorem create_place_ok (st : AppState) (d : PlacePayload) (fid : String) (p : PlaceRec)
    (st2 : AppState) (h : HBnBFacade.create_place st d fid = .ok (p, st2)) :
    st2 = { st with places := st.places ++ [p] } ∧ p.owner_id = d.owner_id.getD "" := by
  unfold HBnBFacade.create_place at h
  rcases h1 : d.owner_id.bind (fun oid => st.users.find? (fun u => u.id == oid)) with _ | ow <;>
    rw [h1] at h
  · simp at h
  · dsimp only at h
    rcases h2 : Place.init fid d.title d.description d.price d.latitude d.longitude
        (d.owner_id.getD "") with e | p0 <;> rw [h2] at h
    · simp at h
    · dsimp only at h
      rcases h3 : HBnBFacade.firstMissingAmenity st (d.amenity_ids.getD []) with _ | m <;>
        rw [h3] at h
      · dsimp only at h
        simp only [Except.ok.injEq, Prod.mk.injEq] at h
        have hs := h.2.symm
        rw [h.1] at hs
        refine ⟨hs, ?_⟩
        rw [← h.1]
        have := place_init_owner fid d.title d.description d.price d.latitude d.longitude
          (d.owner_id.getD "") p0 h2
        simpa using this
      · simp at h

/-- A successful facade create_review appends one review carrying the
payload's user id. -/
theorem create_review_ok (st : AppState) (d : ReviewPayload) (fid : String) (r : ReviewRec)
    (st2 : AppState) (h : HBnBFacade.create_review st d fid = .ok (r, st2)) :
    st2 = { st with reviews := st.reviews ++ [r] } ∧ r.user_id = d.user_id.getD "" := by
  unfold HBnBFacade.create_review at h
  rcases h1 : d.user_id.bind (fun uid => st.users.find? (fun u => u.id == uid)) with _ | us <;>
    rw [h1] at h
  · simp at h
  · dsimp only at h
    rcases h2 : d.place_id.bind (fun pid => st.places.find? (fun p => p.id == pid)) with _ | pl <;>
      rw [h2] at h
    · simp at h
    · dsimp only at h
      rcases h3 : Review.init fid d.text d.rating (d.user_id.getD "") (d.place_id.getD "")
          with e | r0 <;> rw [h3] at h
      · simp at h
      · simp only [Except.ok.injEq, Prod.mk.injEq] at h
        have hs := h.2.symm
        rw [h.1] at hs
        refine ⟨hs, ?_⟩
        rw [← h.1]
        exact review_init_user fid d.text d.rating (d.user_id.getD "") (d.place_id.getD "") r0 h3

/-- Claim C9: the creating endpoints assign authorship from the JWT
identity, not from the payload — changing only the payload's owner_id
(user_id) field leaves a place (review) POST's response and state
unchanged, and any place (review) present after the request is either
pre-existing or carries the requester as owner (author). -/
theorem claim_C9_author_from_token :
    (∀ (current_user : String) (p1 : PlacePayload) (x : Option String) (st : AppState)
       (fresh_id : String),
      PlaceApi.post current_user { p1 with owner_id := x } st fresh_id =
        PlaceApi.post current_user p1 st fresh_id) ∧
    (∀ (current_user : String) (payload : PlacePayload) (st : AppState) (fresh_id : String)
       (pl : PlaceRec), pl ∈ (PlaceApi.post current_user payload st fresh_id).2.places →
      pl ∈ st.places ∨ pl.owner_id = current_user) ∧
    (∀ (current_user : String) (p1 : ReviewPayload) (x : Option String) (st : AppState)
       (fresh_id : String),
      ReviewApi.post current_user { p1 with user_id := x } st fresh_id =
        ReviewApi.post current_user p1 st fresh_id) ∧
    (∀ (current_user : String) (payload : ReviewPayload) (st : AppState) (fresh_id : String)
       (r : ReviewRec), r ∈ (ReviewApi.post current_user payload st fresh_id).2.reviews →
      r ∈ st.reviews ∨ r.user_id = current_user) := by
  refine ⟨?_, ?_, ?_, ?_⟩
  · intro cu p1 x st fid
    rfl
  · intro cu payload st fid pl hmem
    unfold PlaceApi.post at hmem
    dsimp only at hmem
    rcases hc : HBnBFacade.create_place st { payload with owner_id := some cu } fid
        with e | pr <;> rw [hc] at hmem
    · exact Or.inl hmem
    · rcases pr with ⟨p, st2⟩
      have hok := create_place_ok st { payload with owner_id := some cu } fid p st2 hc
      dsimp only at hmem
      rw [hok.1] at hmem
      rcases List.mem_append.mp hmem with hin | hnew
      · exact Or.inl hin
      · right
        rw [List.mem_singleton.mp hnew]
        simpa using hok.2
  · intro cu p1 x st fid
    rfl
  · intro cu payload st fid r hmem
    unfold ReviewApi.post at hmem
    rcases hp : HBnBFacade.get_place st payload.place_id with _ | place <;> rw [hp] at hmem
    · exact Or.inl hmem
    · dsimp only at hmem
      by_cases hown : (place.owner_id == cu) = true
      · simp only [hown, if_true] at hmem
        exact Or.inl hmem
      · simp only [Bool.not_eq_true] at hown
        simp only [hown, Bool.false_eq_true, if_false] at hmem
        by_cases hany : ((HBnBFacade.get_reviews_by_place st (payload.place_id.getD "")).any
            (fun x => x.user_id == cu)) = true
        · simp only [hany, if_true] at hmem
          exact Or.inl hmem
        · simp only [Bool.not_eq_true] at hany
          simp only [hany, Bool.false_eq_true, if_false] at hmem
          rcases hc : HBnBFacade.create_review st { payload with user_id := some cu } fid
              with e | pr <;> rw [hc] at hmem
          · exact Or.inl hmem
          · rcases pr with ⟨rv, st2⟩
            have hok := create_review_ok st { payload with user_id := some cu } fid rv st2 hc
            dsimp only at hmem
            rw [hok.1] at hmem
            rcases List.mem_append.mp hmem with hin | hnew
            · exact Or.inl hin
            · right
              rw [List.mem_singleton.mp hnew]
              simpa using hok.2

/-- Witness for C9: a payload-supplied owner_id/user_id is ignored and the
created records carry the authenticated identity. -/
theorem claim_C9_author_from_token_witness :
    (PlaceApi.post "u1"
        { (⟨some "Beach", some "", some 100, some 10, some 20, none, none⟩ : PlacePayload)
          with owner_id := some "evil" }
        ⟨[⟨"u1", "Al", "A", "al@x.co", "h", false, "t0", "t0"⟩], [], [], []⟩ "p9" =
      PlaceApi.post "u1"
        ⟨some "Beach", some "", some 100, some 10, some 20, none, none⟩
        ⟨[⟨"u1", "Al", "A", "al@x.co", "h", false, "t0", "t0"⟩], [], [], []⟩ "p9") ∧
    ((⟨"p9", "Beach", "", 100, 10, 20, "u1", []⟩ : PlaceRec)
        ∈ ([] : List PlaceRec) ∨
      (⟨"p9", "Beach", "", 100, 10, 20, "u1", []⟩ : PlaceRec).owner_id = "u1") ∧
    (ReviewApi.post "u2"
        { (⟨some "Nice", some (PyIntVal.int 5), none, some "p1"⟩ : ReviewPayload)
          with user_id := some "evil" }
        ⟨[⟨"u2", "Bo", "B", "bo@x.co", "h", false, "t0", "t0"⟩],
         [⟨"p1", "Beach", "", 100, 10, 20, "u1", []⟩], [], []⟩ "r9" =
      ReviewApi.post "u2" ⟨some "Nice", some (PyIntVal.int 5), none, some "p1"⟩
        ⟨[⟨"u2", "Bo", "B", "bo@x.co", "h", false, "t0", "t0"⟩],
         [⟨"p1", "Beach", "", 100, 10, 20, "u1", []⟩], [], []⟩ "r9") ∧
    ((⟨"r9", "Nice", 5, "u2", "p1"⟩ : ReviewRec) ∈ ([] : List ReviewRec) ∨
      (⟨"r9", "Nice", 5, "u2", "p1"⟩ : ReviewRec).user_id = "u2") := by
  refine ⟨?_, ?_, ?_, ?_⟩
  · exact claim_C9_author_from_token.1 "u1"
      ⟨some "Beach", some "", some 100, some 10, some 20, none, none⟩ (some "evil")
      ⟨[⟨"u1", "Al", "A", "al@x.co", "h", false, "t0", "t0"⟩], [], [], []⟩ "p9"
  · exact claim_C9_author_from_token.2.1 "u1"
      ⟨some "Beach", some "", some 100, some 10, some 20, some "evil", none⟩
      ⟨[⟨"u1", "Al", "A", "al@x.co", "h", false, "t0", "t0"⟩], [], [], []⟩ "p9"
      ⟨"p9", "Beach", "", 100, 10, 20, "u1", []⟩ (by decide)
  · exact claim_C9_author_from_token.2.2.1 "u2"
      ⟨some "Nice", some (PyIntVal.int 5), none, some "p1"⟩ (some "evil")
      ⟨[⟨"u2", "Bo", "B", "bo@x.co", "h", false, "t0", "t0"⟩],
       [⟨"p1", "Beach", "", 100, 10, 20, "u1", []⟩], [], []⟩ "r9"
  · exact claim_C9_author_from_token.2.2.2 "u2"
      ⟨some "Nice", some (PyIntVal.int 5), some "evil", some "p1"⟩
      ⟨[⟨"u2", "Bo", "B", "bo@x.co", "h", false, "t0", "t0"⟩],
       [⟨"p1", "Beach", "", 100, 10, 20, "u1", []⟩], [], []⟩ "r9"
      ⟨"r9", "Nice", 5, "u2", "p1"⟩ (by decide)

/-- A non-admin PUT on someone else's place is rejected unchanged. -/
theorem place_put_nonowner (current_user place_id : String) (payload : PlacePayload)
    (st : AppState) (place : PlaceRec)
    (hfind : st.places.find? (fun p => p.id == place_id) = some place)
    (hne : place.owner_id ≠ current_user) :
    PlaceApi.put current_user false place_id payload st =
      (errResp PlaceRec 403 "Unauthorized action", st) := by
  unfold PlaceApi.put
  simp only [HBnBFacade.get_place, hfind]
  have hb : (place.owner_id != current_user) = true := bne_iff_ne.mpr hne
  simp [hb]

/-- An admin PUT on a place does not depend on the requester identity. -/
theorem place_put_admin_any (u1 u2 place_id : String) (payload : PlacePayload)
    (st : AppState) :
    PlaceApi.put u1 true place_id payload st = PlaceApi.put u2 true place_id payload st := by
  unfold PlaceApi.put
  rcases HBnBFacade.get_place st (some place_id) with _ | place <;> rfl

/-- An admin PUT on a place is never answered 403. -/
theorem place_put_admin_no403 (current_user place_id : String) (payload : PlacePayload)
    (st : AppState) :
    (PlaceApi.put current_user true place_id payload st).1.status ≠ 403 := by
  unfold PlaceApi.put
  rcases HBnBFacade.get_place st (some place_id) with _ | place
  · simp [errResp]
  · simp only [Bool.not_true, Bool.false_and, Bool.false_eq_true, if_false]
    rcases HBnBFacade.update_place st place_id { payload with owner_id := none }
        with e | op
    · simp [errResp]
    · rcases op with _ | pr
      · simp [errResp]
      · rcases pr with ⟨p, st2⟩
        simp [okResp]

/-- A non-admin PUT on someone else's review is rejected unchanged. -/
theorem review_put_nonauthor (current_user review_id : String) (payload : ReviewPayload)
    (st : AppState) (review : ReviewRec)
    (hfind : st.reviews.find? (fun r => r.id == review_id) = some review)
    (hne : review.user_id ≠ current_user) :
    ReviewApi.put current_user false review_id payload st =
      (errResp ReviewRec 403 "Unauthorized action", st) := by
  unfold ReviewApi.put
  simp only [HBnBFacade.get_review, hfind]
  have hb : (review.user_id != current_user) = true := bne_iff_ne.mpr hne
  simp [hb]

/-- An admin PUT on a review does not depend on the requester identity. -/
theorem review_put_admin_any (u1 u2 review_id : String) (payload : ReviewPayload)
    (st : AppState) :
    ReviewApi.put u1 true review_id payload st = ReviewApi.put u2 true review_id payload st := by
  unfold ReviewApi.put
  rcases HBnBFacade.get_review st review_id with _ | review <;> rfl

/-- An admin PUT on a review is never answered 403. -/
theorem review_put_admin_no403 (current_user review_id : String) (payload : ReviewPayload)
    (st : AppState) :
    (ReviewApi.put current_user true review_id payload st).1.status ≠ 403 := by
  unfold ReviewApi.put
  rcases HBnBFacade.get_review st review_id with _ | review
  · simp [errResp]
  · simp only [Bool.not_true, Bool.false_and, Bool.false_eq_true, if_false]
    rcases HBnBFacade.update_review st review_id { payload with user_id := none, place_id := none }
        with e | op
    · simp [errResp]
    · rcases op with _ | pr
      · simp [errResp]
      · rcases pr with ⟨r, st2⟩
        simp [okResp]

/-- Claim C1: on the individual place and review PUT endpoints, a
non-admin whose JWT identity differs from the stored record's owner
(place.owner_id / review.user_id) is answered 403 `Unauthorized action`
with the state unchanged; an admin's request is processed independently of
whether the admin is the record's creator and is never answered 403. -/
theorem claim_C1_put_ownership :
    (∀ (current_user place_id : String) (payload : PlacePayload) (st : AppState)
       (place : PlaceRec),
      st.places.find? (fun p => p.id == place_id) = some place →
      place.owner_id ≠ current_user →
      PlaceApi.put current_user false place_id payload st =
        (errResp PlaceRec 403 "Unauthorized action", st)) ∧
    (∀ (u1 u2 place_id : String) (payload : PlacePayload) (st : AppState),
      PlaceApi.put u1 true place_id payload st = PlaceApi.put u2 true place_id payload st) ∧
    (∀ (current_user place_id : String) (payload : PlacePayload) (st : AppState),
      (PlaceApi.put current_user true place_id payload st).1.status ≠ 403) ∧
    (∀ (current_user review_id : String) (payload : ReviewPayload) (st : AppState)
       (review : ReviewRec),
      st.reviews.find? (fun r => r.id == review_id) = some review →
      review.user_id ≠ current_user →
      ReviewApi.put current_user false review_id payload st =
        (errResp ReviewRec 403 "Unauthorized action", st)) ∧
    (∀ (u1 u2 review_id : String) (payload : ReviewPayload) (st : AppState),
      ReviewApi.put u1 true review_id payload st = ReviewApi.put u2 true review_id payload st) ∧
    (∀ (current_user review_id : String) (payload : ReviewPayload) (st : AppState),
      (ReviewApi.put current_user true review_id payload st).1.status ≠ 403) :=
  ⟨place_put_nonowner, place_put_admin_any, place_put_admin_no403,
   review_put_nonauthor, review_put_admin_any, review_put_admin_no403⟩

/-- Witness for C1: a non-admin stranger is rejected on both endpoints. -/
theorem claim_C1_put_ownership_witness :
    PlaceApi.put "u2" false "p1" ⟨some "New", none, none, none, none, none, none⟩
        ⟨[], [⟨"p1", "Beach", "", 100, 10, 20, "u1", []⟩], [], []⟩ =
      (errResp PlaceRec 403 "Unauthorized action",
        ⟨[], [⟨"p1", "Beach", "", 100, 10, 20, "u1", []⟩], [], []⟩) ∧
    ReviewApi.put "u1" false "r1" ⟨some "New", none, none, none⟩
        ⟨[], [], [], [⟨"r1", "Old", 3, "u2", "p1"⟩]⟩ =
      (errResp ReviewRec 403 "Unauthorized action",
        ⟨[], [], [], [⟨"r1", "Old", 3, "u2", "p1"⟩]⟩) := by
  constructor
  · exact claim_C1_put_ownership.1 "u2" "p1" ⟨some "New", none, none, none, none, none, none⟩
      ⟨[], [⟨"p1", "Beach", "", 100, 10, 20, "u1", []⟩], [], []⟩
      ⟨"p1", "Beach", "", 100, 10, 20, "u1", []⟩ rfl (by decide)
  · exact claim_C1_put_ownership.2.2.2.1 "u1" "r1" ⟨some "New", none, none, none⟩
      ⟨[], [], [], [⟨"r1", "Old", 3, "u2", "p1"⟩]⟩
      ⟨"r1", "Old", 3, "u2", "p1"⟩ rfl (by decide)

/-- A validated email is the stripped lowercased input. -/
theorem validate_email_norm (e ne : String) (h : User._validate_email (some e) = .ok ne) :
    ne = pyLower (pyStrip e) := by
  unfold User._validate_email at h
  by_cases h0 : e = "" <;> simp [h0] at h
  by_cases h1 : pyEmailMatch (pyLower (pyStrip e)) = true <;> simp [h1] at h
  exact h.symm

/-- Claim C4: on the user PUT endpoint, a non-admin targeting another user
is answered 403 `Unauthorized action`; a non-admin sending an email or
password key is answered 400 `You cannot modify email or password`; both
leave the state unchanged.  An admin sending an email held by a different
user is answered 400 `Email already in use`; an admin whose new email is
valid and not held by another user gets 200 and the target's stored email
is changed. -/
theorem claim_C4_user_put_restrictions :
    (∀ (bH : String → String) (current_user user_id : String) (payload : UserPayload)
       (st : AppState), current_user ≠ user_id →
      UserApi.put bH current_user false user_id payload st =
        (errResp UserRec 403 "Unauthorized action", st)) ∧
    (∀ (bH : String → String) (user_id : String) (payload : UserPayload) (st : AppState),
      (payload.email.isSome = true ∨ payload.password.isSome = true) →
      UserApi.put bH user_id false user_id payload st =
        (errResp UserRec 400 "You cannot modify email or password", st)) ∧
    (∀ (bH : String → String) (current_user user_id e : String) (payload : UserPayload)
       (st : AppState) (existing : UserRec),
      payload.email = some e →
      HBnBFacade.get_user_by_email st e = some existing →
      existing.id ≠ user_id →
      UserApi.put bH current_user true user_id payload st =
        (errResp UserRec 400 "Email already in use", st)) ∧
    (∀ (bH : String → String) (current_user user_id e ne : String) (st : AppState)
       (target : UserRec),
      st.users.find? (fun u => u.id == user_id) = some target →
      User._validate_email (some e) = .ok ne →
      st.users.find? (fun u => u.email == ne) = none →
      UserApi.put bH current_user true user_id ⟨none, none, some e, none, none⟩ st =
        (okResp 200 { target with email := e },
          { st with users := listReplaceById (fun x => x.id) st.users ({ target with email := e }) })) := by
  refine ⟨?_, ?_, ?_, ?_⟩
  · intro bH cu uid payload st hne
    unfold UserApi.put
    have hb : (cu != uid) = true := bne_iff_ne.mpr hne
    simp [hb]
  · intro bH uid payload st hkey
    unfold UserApi.put
    simp only [bne_self_eq_false, Bool.not_false, Bool.true_and, Bool.and_false,
      Bool.false_eq_true, if_false]
    rcases hkey with he | hp
    · simp [he]
    · rcases hpe : payload.email with _ | e
      · simp [hpe, hp]
      · simp [hpe]
  · intro bH cu uid e payload st existing hpe hget hne
    unfold UserApi.put
    have hb : (existing.id != uid) = true := bne_iff_ne.mpr hne
    simp [hpe, hget, hb]
  · intro bH cu uid e ne st target hfind hvalid hnone
    have hnorm : ne = pyLower (pyStrip e) := validate_email_norm e ne hvalid
    unfold UserApi.put
    have hget : HBnBFacade.get_user_by_email st e = none := by
      unfold HBnBFacade.get_user_by_email
      rw [← hnorm]
      exact hnone
    simp only [Bool.not_true, Bool.false_and, Bool.false_eq_true, if_false, if_true, hget]
    unfold UserApi.putUpdate HBnBFacade.update_user
    rw [hfind]
    unfold HBnBFacade.updFirstName HBnBFacade.updLastName HBnBFacade.updEmail
      HBnBFacade.updPassword
    simp only [Except.bind]
    rw [hvalid]
    simp only [hnone]
    rfl

/-- Witness for C4 with a concrete two-user table. -/
theorem claim_C4_user_put_restrictions_witness :
    UserApi.put (fun s => s) "u2" false "u1" ⟨some "Jane", none, none, none, none⟩
        ⟨[⟨"u1", "Al", "A", "al@x.co", "h", false, "t0", "t0"⟩], [], [], []⟩ =
      (errResp UserRec 403 "Unauthorized action",
        ⟨[⟨"u1", "Al", "A", "al@x.co", "h", false, "t0", "t0"⟩], [], [], []⟩) ∧
    UserApi.put (fun s => s) "u1" false "u1" ⟨none, none, some "new@x.co", none, none⟩
        ⟨[⟨"u1", "Al", "A", "al@x.co", "h", false, "t0", "t0"⟩], [], [], []⟩ =
      (errResp UserRec 400 "You cannot modify email or password",
        ⟨[⟨"u1", "Al", "A", "al@x.co", "h", false, "t0", "t0"⟩], [], [], []⟩) ∧
    UserApi.put (fun s => s) "adm" true "u1" ⟨none, none, some "bo@x.co", none, none⟩
        ⟨[⟨"u1", "Al", "A", "al@x.co", "h", false, "t0", "t0"⟩,
          ⟨"u2", "Bo", "B", "bo@x.co", "h", false, "t0", "t0"⟩], [], [], []⟩ =
      (errResp UserRec 400 "Email already in use",
        ⟨[⟨"u1", "Al", "A", "al@x.co", "h", false, "t0", "t0"⟩,
          ⟨"u2", "Bo", "B", "bo@x.co", "h", false, "t0", "t0"⟩], [], [], []⟩) ∧
    UserApi.put (fun s => s) "adm" true "u1" ⟨none, none, some "new@x.co", none, none⟩
        ⟨[⟨"u1", "Al", "A", "al@x.co", "h", false, "t0", "t0"⟩], [], [], []⟩ =
      (okResp 200 (⟨"u1", "Al", "A", "new@x.co", "h", false, "t0", "t0"⟩ : UserRec),
        ⟨[⟨"u1", "Al", "A", "new@x.co", "h", false, "t0", "t0"⟩], [], [], []⟩) := by
  refine ⟨?_, ?_, ?_, ?_⟩
  · exact claim_C4_user_put_restrictions.1 (fun s => s) "u2" "u1"
      ⟨some "Jane", none, none, none, none⟩
      ⟨[⟨"u1", "Al", "A", "al@x.co", "h", false, "t0", "t0"⟩], [], [], []⟩ (by decide)
  · exact claim_C4_user_put_restrictions.2.1 (fun s => s) "u1"
      ⟨none, none, some "new@x.co", none, none⟩
      ⟨[⟨"u1", "Al", "A", "al@x.co", "h", false, "t0", "t0"⟩], [], [], []⟩ (Or.inl rfl)
  · exact claim_C4_user_put_restrictions.2.2.1 (fun s => s) "adm" "u1" "bo@x.co"
      ⟨none, none, some "bo@x.co", none, none⟩
      ⟨[⟨"u1", "Al", "A", "al@x.co", "h", false, "t0", "t0"⟩,
        ⟨"u2", "Bo", "B", "bo@x.co", "h", false, "t0", "t0"⟩], [], [], []⟩
      ⟨"u2", "Bo", "B", "bo@x.co", "h", false, "t0", "t0"⟩ rfl (by decide) (by decide)
  · have h := claim_C4_user_put_restrictions.2.2.2 (fun s => s) "adm" "u1" "new@x.co"
      "new@x.co" ⟨[⟨"u1", "Al", "A", "al@x.co", "h", false, "t0", "t0"⟩], [], [], []⟩
      ⟨"u1", "Al", "A", "al@x.co", "h", false, "t0", "t0"⟩ rfl rfl (by decide)
    exact h

/-! ## Claims about facade user creation (email uniqueness) -/

/-- Counterexample for C5: part2's facade create_user happily stores a
second user with an already-registered email — no ValueError, both users
stored.  (The uniqueness check of part2 lives in the API layer,
part2/app/api/v1/users.py, not in the facade.) -/
theorem claim_C5_email_uniqueness_counterexample :
    HBnBFacade2.create_user
        ⟨[⟨"u1", "Al", "A", "al@x.co", false⟩], [], []⟩
        ⟨"Bo", "B", "al@x.co", false⟩ "u2" =
      .ok (⟨"u2", "Bo", "B", "al@x.co", false⟩,
        ⟨[⟨"u1", "Al", "A", "al@x.co", false⟩, ⟨"u2", "Bo", "B", "al@x.co", false⟩],
         [], []⟩) := by
  rfl

/-- Amended C5: the part4 facade itself rejects an already-registered
(normalized) email with ValueError `Email already registered` and
otherwise stores the new user; the part2 facade's create_user, however,
performs no uniqueness check at all — it is exactly model construction
followed by repository add, whatever emails are stored. -/
theorem claim_C5_email_uniqueness_amended :
    (∀ (bH : String → String) (st : AppState) (d : UserPayload) (fid ts : String)
       (u : UserRec), u ∈ st.users → u.email = pyLower (pyStrip (d.email.getD "")) →
      HBnBFacade.create_user bH st d fid ts = .error "Email already registered") ∧
    (∀ (bH : String → String) (st : AppState) (d : UserPayload) (fid ts : String)
       (nu : UserRec),
      (∀ u ∈ st.users, u.email ≠ pyLower (pyStrip (d.email.getD ""))) →
      User.init bH fid ts d.first_name d.last_name d.email d.password
        (d.is_admin.getD false) = .ok nu →
      HBnBFacade.create_user bH st d fid ts = .ok (nu, { st with users := st.users ++ [nu] })) ∧
    (∀ (st : App2State) (d : User2Payload) (fid : String),
      HBnBFacade2.create_user st d fid =
        (User2.init fid d.first_name d.last_name d.email d.is_admin).map
          (fun u => (u, { st with users := dictAdd (fun x => x.id) st.users u }))) := by
  refine ⟨?_, ?_, ?_⟩
  · intro bH st d fid ts u hmem hemail
    unfold HBnBFacade.create_user
    rcases hf : st.users.find? (fun x => x.email == pyLower (pyStrip (d.email.getD "")))
        with _ | ex
    · rw [List.find?_eq_none] at hf
      exact absurd (by simp [hemail]) (hf u hmem)
    · dsimp only
      rw [hf]
  · intro bH st d fid ts nu hnone hinit
    unfold HBnBFacade.create_user
    rcases hf : st.users.find? (fun x => x.email == pyLower (pyStrip (d.email.getD "")))
        with _ | ex
    · dsimp only
      rw [hf, hinit]
    · have := List.find?_some hf
      have hmem := List.mem_of_find?_eq_some hf
      exact absurd (by simpa using this) (hnone ex hmem)
  · intro st d fid
    unfold HBnBFacade2.create_user
    rcases User2.init fid d.first_name d.last_name d.email d.is_admin with e | u <;> rfl

/-- Witness for the amended C5: part4 rejects the duplicate that part2
accepted, and accepts a fresh email. -/
theorem claim_C5_email_uniqueness_amended_witness :
    HBnBFacade.create_user (fun s => s)
        ⟨[⟨"u1", "Al", "A", "al@x.co", "h", false, "t0", "t0"⟩], [], [], []⟩
        ⟨some "Bo", some "B", some "al@x.co", some "secret1", none⟩ "u2" "t1" =
      .error "Email already registered" ∧
    HBnBFacade.create_user (fun s => s)
        ⟨[⟨"u1", "Al", "A", "al@x.co", "h", false, "t0", "t0"⟩], [], [], []⟩
        ⟨some "Bo", some "B", some "bo@x.co", some "secret1", none⟩ "u2" "t1" =
      .ok (⟨"u2", "Bo", "B", "bo@x.co", "secret1", false, "t1", "t1"⟩,
        ⟨[⟨"u1", "Al", "A", "al@x.co", "h", false, "t0", "t0"⟩,
          ⟨"u2", "Bo", "B", "bo@x.co", "secret1", false, "t1", "t1"⟩], [], [], []⟩) := by
  constructor
  · exact claim_C5_email_uniqueness_amended.1 (fun s => s)
      ⟨[⟨"u1", "Al", "A", "al@x.co", "h", false, "t0", "t0"⟩], [], [], []⟩
      ⟨some "Bo", some "B", some "al@x.co", some "secret1", none⟩ "u2" "t1"
      ⟨"u1", "Al", "A", "al@x.co", "h", false, "t0", "t0"⟩ (by decide) (by decide)
  · exact claim_C5_email_uniqueness_amended.2.1 (fun s => s)
      ⟨[⟨"u1", "Al", "A", "al@x.co", "h", false, "t0", "t0"⟩], [], [], []⟩
      ⟨some "Bo", some "B", some "bo@x.co", some "secret1", none⟩ "u2" "t1"
      ⟨"u2", "Bo", "B", "bo@x.co", "secret1", false, "t1", "t1"⟩ (by decide) rfl

/-! ## Claims about facade place update / creation (amenity and owner
existence) -/

/-- Counterexample for C6: part2's effective update_place silently ignores
an `amenity_ids` entry naming a nonexistent amenity — the call returns the
place normally (the state is unchanged), where the claim expects a
ValueError.  The part2 update path applies the payload via
`BaseModel.update`, and `amenity_ids` is not an attribute of a part2
Place, so the hasattr check skips it; no amenity validation runs. -/
theorem claim_C6_amenity_validation_counterexample :
    HBnBFacade2.update_place
        ⟨[], [⟨"p1", "Beach", "", 100, 10, 20, "u1", []⟩], []⟩ "p1"
        ⟨none, none, none, none, none, none, some ["am-missing"]⟩ =
      some (⟨"p1", "Beach", "", 100, 10, 20, "u1", []⟩,
        ⟨[], [⟨"p1", "Beach", "", 100, 10, 20, "u1", []⟩], []⟩) := by
  rfl

/-- Amended C6: the part4 facade's update_place does raise
`Amenity ... not found` for the first listed amenity id with no stored
amenity (once the scalar fields validate), and attaches the amenities only
when they all exist; part2's create_place raises `Owner not found` for a
nonexistent owner; but part2's update_place performs no amenity
validation (see the counterexample). -/
theorem claim_C6_amenity_validation_amended :
    (∀ (st : AppState) (place_id : String) (d : PlacePayload) (place p1 : PlaceRec)
       (ids : List String) (missing : String),
      st.places.find? (fun p => p.id == place_id) = some place →
      HBnBFacade.updPlaceFields d place = .ok p1 →
      d.amenity_ids = some ids →
      HBnBFacade.firstMissingAmenity st ids = some missing →
      HBnBFacade.update_place st place_id d =
        .error ("Amenity " ++ missing ++ " not found")) ∧
    (∀ (st : AppState) (ids : List String),
      HBnBFacade.firstMissingAmenity st ids = none ↔
        ∀ i ∈ ids, ∃ a ∈ st.amenities, a.id = i) ∧
    (∀ (st : App2State) (d : Place2CreateData) (fid : String),
      st.users.find? (fun u => u.id == d.owner_id) = none →
      HBnBFacade2.create_place st d fid = .error "Owner not found") := by
  refine ⟨?_, ?_, ?_⟩
  · intro st place_id d place p1 ids missing hfind hfields hids hmiss
    unfold HBnBFacade.update_place
    rw [hfind]
    dsimp only
    rw [hfields, hids]
    dsimp only
    rw [hmiss]
  · intro st ids
    unfold HBnBFacade.firstMissingAmenity
    rw [List.find?_eq_none]
    constructor
    · intro h i hi
      have hni := h i hi
      rcases hf : st.amenities.find? (fun a => a.id == i) with _ | a
      · rw [hf] at hni
        simp at hni
      · exact ⟨a, List.mem_of_find?_eq_some hf, by simpa using List.find?_some hf⟩
    · intro h i hi hc
      rcases h i hi with ⟨a, ha, hai⟩
      rw [Option.isNone_iff_eq_none, List.find?_eq_none] at hc
      exact hc a ha (by simp [hai])
  · intro st d fid hnone
    unfold HBnBFacade2.create_place
    rw [hnone]

/-- Witness for the amended C6 on concrete stores. -/
theorem claim_C6_amenity_validation_amended_witness :
    HBnBFacade.update_place
        ⟨[], [⟨"p1", "Beach", "", 100, 10, 20, "u1", []⟩], [⟨"am1", "WiFi"⟩], []⟩ "p1"
        ⟨none, none, none, none, none, none, some ["am1", "am-missing"]⟩ =
      .error "Amenity am-missing not found" ∧
    (HBnBFacade.firstMissingAmenity
        ⟨[], [], [⟨"am1", "WiFi"⟩], []⟩ ["am1"] = none ↔
      ∀ i ∈ ["am1"], ∃ a ∈ [(⟨"am1", "WiFi"⟩ : AmenityRec)], a.id = i) ∧
    HBnBFacade2.create_place ⟨[], [], []⟩
        ⟨"Beach", "", 100, 10, 20, "nobody"⟩ "p9" =
      .error "Owner not found" := by
  refine ⟨?_, ?_, ?_⟩
  · exact claim_C6_amenity_validation_amended.1
      ⟨[], [⟨"p1", "Beach", "", 100, 10, 20, "u1", []⟩], [⟨"am1", "WiFi"⟩], []⟩ "p1"
      ⟨none, none, none, none, none, none, some ["am1", "am-missing"]⟩
      ⟨"p1", "Beach", "", 100, 10, 20, "u1", []⟩
      ⟨"p1", "Beach", "", 100, 10, 20, "u1", []⟩ ["am1", "am-missing"] "am-missing"
      rfl rfl rfl rfl
  · exact claim_C6_amenity_validation_amended.2.1 ⟨[], [], [⟨"am1", "WiFi"⟩], []⟩ ["am1"]
  · exact claim_C6_amenity_validation_amended.2.2 ⟨[], [], []⟩
      ⟨"Beach", "", 100, 10, 20, "nobody"⟩ "p9" rfl
